import Mathlib

/-!
# SmartAssistant firmware core: shallow embedding and verification

A shallow embedding of the desk-assistant firmware core:

* the gesture-recognition state machine of src/main/mpu6050_module.c
  (shake/tap detection over streamed accelerometer samples),
* the PIR presence detector of src/main/pir_module.c,
* the Wi-Fi connectivity manager (wifi_module.c) with its adaptive
  retry backoff,
* the per-module status-string formatters and boolean accessors.

Modelling conventions:

* C floats (g-unit accelerations, thresholds) are modelled as rationals.
* uint32_t millisecond/second timestamps become naturals.  All stored
  timestamps are earlier readings of the same monotone clock, so C unsigned
  subtraction agrees with truncated Nat subtraction in every scenario below.
* Each periodic task body becomes a pure step function on an explicit state
  record; the private function-local static variables of the C code are
  extra fields of that record.
* Logging calls have no observable state and are dropped; hardware calls
  (sensor reads, esp_wifi primitives) become input parameters of the step.
-/

namespace SmartAssistant

/-! ## Configuration constants (src: project_config.h) -/

def CONFIG_MPU6050_TAP_Z_THRESHOLD : ℚ := 0.2

def CONFIG_MPU6050_SHAKE_THRESHOLD : ℚ := 0.18

def CONFIG_MPU6050_TAP_DEBOUNCE_MS : ℕ := 180

def CONFIG_MPU6050_TAP_DISPLAY_MS : ℕ := 800

def CONFIG_MPU6050_SHAKE_MIN_DURATION_MS : ℕ := 500

def CONFIG_MPU6050_SHAKE_DISPLAY_MS : ℕ := 800

def CONFIG_MPU6050_SHAKE_TIMEOUT_MS : ℕ := 500

def CONFIG_MPU6050_POLL_INTERVAL_MS : ℕ := 50

def CONFIG_PIR_POLL_INTERVAL_MS : ℕ := 500

def CONFIG_WIFI_MAXIMUM_RETRY : ℕ := 5

def CONFIG_WIFI_INITIAL_RETRY_MS : ℕ := 2000

def CONFIG_WIFI_MAX_RETRY_MS : ℕ := 10000

/-! ## Gesture detector (src: mpu6050_module.c) -/

/-- One accelerometer sample in g units (source type: mpu6050_acce_value_t). -/
structure AccelSample where
  acce_x : ℚ
  acce_y : ℚ
  acce_z : ℚ
deriving DecidableEq

/-- The complete state of the motion detection task between two polling
ticks: the published motion_status fields (shake_detected, tap_detected,
last_motion_time), the module-level state machine variables, and the
function-local statics of detect_shake_activity (prev_ax/ay/az, first_run)
and detect_tap (prev_tap_z, tap_first_run). -/
structure MotionState where
  shake_detected : Bool
  tap_detected : Bool
  last_motion_time : ℕ
  last_shake_activity_time : ℕ
  last_tap_time : ℕ
  tap_display_start : ℕ
  shake_start_time : ℕ
  shake_display_start : ℕ
  is_shaking : Bool
  prev_ax : ℚ
  prev_ay : ℚ
  prev_az : ℚ
  first_run : Bool
  prev_tap_z : ℚ
  tap_first_run : Bool
deriving DecidableEq

/-- State at module init: memset(&motion_status, 0, ...) plus the static
initializers of the state-machine variables; prev_tap_z starts at 1.0f. -/
def MotionState.init : MotionState where
  shake_detected := false
  tap_detected := false
  last_motion_time := 0
  last_shake_activity_time := 0
  last_tap_time := 0
  tap_display_start := 0
  shake_start_time := 0
  shake_display_start := 0
  is_shaking := false
  prev_ax := 0
  prev_ay := 0
  prev_az := 0
  first_run := true
  prev_tap_z := 1
  tap_first_run := true

/-- detect_shake_activity (mpu6050_module.c, lines 52-79).  The C code tests
sqrtf(dx*dx + dy*dy + dz*dz) > CONFIG_MPU6050_SHAKE_THRESHOLD; both sides
are nonnegative, so it is embedded as the equivalent comparison of the
squares, which stays inside ℚ.  Returns the activity flag together with the
updated static state (prev_ax/prev_ay/prev_az, first_run). -/
def detect_shake_activity (st : MotionState) (ax ay az : ℚ) : Bool × MotionState :=
  if st.first_run then
    (false, { st with prev_ax := ax, prev_ay := ay, prev_az := az, first_run := false })
  else
    let delta_x := |ax - st.prev_ax|
    let delta_y := |ay - st.prev_ay|
    let delta_z := |az - st.prev_az|
    let st := { st with prev_ax := ax, prev_ay := ay, prev_az := az }
    (decide (delta_x ^ 2 + delta_y ^ 2 + delta_z ^ 2 >
      CONFIG_MPU6050_SHAKE_THRESHOLD ^ 2), st)

/-- detect_tap (mpu6050_module.c, lines 85-115).  Returns the accepted-tap
flag and the updated static state (prev_tap_z, tap_first_run,
last_tap_time).  Note that while is_shaking the function returns early and
does not update prev_tap_z. -/
def detect_tap (st : MotionState) (az : ℚ) (current_time : ℕ) : Bool × MotionState :=
  if st.is_shaking then
    (false, st)
  else if st.tap_first_run then
    (false, { st with prev_tap_z := az, tap_first_run := false })
  else
    let z_change := |az - st.prev_tap_z|
    let st := { st with prev_tap_z := az }
    if z_change > CONFIG_MPU6050_TAP_Z_THRESHOLD then
      if current_time - st.last_tap_time > CONFIG_MPU6050_TAP_DEBOUNCE_MS then
        (true, { st with last_tap_time := current_time })
      else
        (false, st)
    else
      (false, st)

/-- Block "2. SHAKE STATE MANAGEMENT" of motion_detection_task
(mpu6050_module.c, lines 139-174).  get_time_seconds() in the source is the
same microsecond clock divided by 10^6, i.e. current_time / 1000. -/
def shake_state_update (st : MotionState) (shake_activity : Bool) (current_time : ℕ) :
    MotionState :=
  if shake_activity then
    let st := if st.shake_start_time = 0 then { st with shake_start_time := current_time }
      else st
    let st := { st with last_shake_activity_time := current_time }
    if ¬st.is_shaking ∧
        current_time - st.shake_start_time ≥ CONFIG_MPU6050_SHAKE_MIN_DURATION_MS then
      { st with is_shaking := true, shake_detected := true, tap_detected := false,
                last_motion_time := current_time / 1000,
                shake_display_start := current_time }
    else
      st
  else
    if st.shake_start_time > 0 ∧
        current_time - st.last_shake_activity_time > CONFIG_MPU6050_SHAKE_TIMEOUT_MS then
      let st := { st with shake_start_time := 0, is_shaking := false }
      if st.shake_display_start > 0 ∧
          current_time - st.shake_display_start < CONFIG_MPU6050_SHAKE_DISPLAY_MS then
        { st with shake_detected := true }
      else
        { st with shake_detected := false, shake_display_start := 0 }
    else
      st

/-- Block "5. SHAKE DISPLAY TIMEOUT" (mpu6050_module.c, lines 176-183). -/
def shake_display_timeout (st : MotionState) (current_time : ℕ) : MotionState :=
  if st.shake_detected ∧ st.shake_display_start > 0 ∧ ¬st.is_shaking then
    if current_time - st.shake_display_start ≥ CONFIG_MPU6050_SHAKE_DISPLAY_MS then
      { st with shake_detected := false, shake_display_start := 0 }
    else
      st
  else
    st

/-- Block "3. TAP EVENT HANDLING" (mpu6050_module.c, lines 185-191). -/
def tap_event_update (st : MotionState) (tap_event : Bool) (current_time : ℕ) :
    MotionState :=
  if tap_event then
    { st with tap_detected := true, last_motion_time := current_time / 1000,
              tap_display_start := current_time }
  else
    st

/-- Block "4. TAP DISPLAY TIMEOUT" (mpu6050_module.c, lines 193-200). -/
def tap_display_timeout (st : MotionState) (current_time : ℕ) : MotionState :=
  if st.tap_detected ∧ st.tap_display_start > 0 then
    if current_time - st.tap_display_start ≥ CONFIG_MPU6050_TAP_DISPLAY_MS then
      { st with tap_detected := false, tap_display_start := 0 }
    else
      st
  else
    st

/-- One successful-read polling iteration of motion_detection_task
(mpu6050_module.c, lines 125-206), in the source order of the blocks.
Returns the new state together with this tick's instantaneous flags
(shake_activity, tap_event). -/
def motion_tick (st : MotionState) (sample : AccelSample) (current_time : ℕ) :
    MotionState × Bool × Bool :=
  let a := detect_shake_activity st sample.acce_x sample.acce_y sample.acce_z
  let t := detect_tap a.2 sample.acce_z current_time
  let st1 := shake_state_update t.2 a.1 current_time
  let st2 := shake_display_timeout st1 current_time
  let st3 := tap_event_update st2 t.1 current_time
  let st4 := tap_display_timeout st3 current_time
  (st4, a.1, t.1)

/-- The state transformer of one polling tick. -/
def motionStep (st : MotionState) (sample : AccelSample) (current_time : ℕ) :
    MotionState :=
  (motion_tick st sample current_time).1

/-- State after the k-th polling tick of motion_detection_task: the task
starts at millisecond time t0 and polls every CONFIG_MPU6050_POLL_INTERVAL_MS,
so tick k executes at time t0 + 50 * k. -/
def motionRun (s : ℕ → AccelSample) (t0 : ℕ) : ℕ → MotionState
  | 0 => motionStep MotionState.init (s 0) t0
  | k + 1 => motionStep (motionRun s t0 k) (s (k + 1))
      (t0 + CONFIG_MPU6050_POLL_INTERVAL_MS * (k + 1))

/-- The tap_event flag computed by detect_tap at tick k of the run. -/
def tapEventAt (s : ℕ → AccelSample) (t0 : ℕ) : ℕ → Bool
  | 0 => (motion_tick MotionState.init (s 0) t0).2.2
  | k + 1 => (motion_tick (motionRun s t0 k) (s (k + 1))
      (t0 + CONFIG_MPU6050_POLL_INTERVAL_MS * (k + 1))).2.2

/-- Squared magnitude of the acceleration change between samples k-1 and k of
a stream; detect_shake_activity reports activity at tick k exactly when this
exceeds CONFIG_MPU6050_SHAKE_THRESHOLD ^ 2 (tick 0 only seeds the memory). -/
def deltaSq (s : ℕ → AccelSample) (k : ℕ) : ℚ :=
  ((s k).acce_x - (s (k - 1)).acce_x) ^ 2 + ((s k).acce_y - (s (k - 1)).acce_y) ^ 2 +
    ((s k).acce_z - (s (k - 1)).acce_z) ^ 2

/-- mpu6050_is_shake_detected (mpu6050_module.c, lines 327-330). -/
def mpu6050_is_shake_detected (module_initialized : Bool) (st : MotionState) : Bool :=
  if module_initialized then st.shake_detected else false

/-- mpu6050_is_tap_detected (mpu6050_module.c, lines 332-335). -/
def mpu6050_is_tap_detected (module_initialized : Bool) (st : MotionState) : Bool :=
  if module_initialized then st.tap_detected else false

/-! ## PIR presence detector (src: pir_module.c) -/

/-- Published PIR status (source type: pir_status_t); timestamps in seconds. -/
structure PirStatus where
  motion_detected : Bool
  last_motion_time : ℕ
  no_motion_duration : ℕ
deriving DecidableEq

/-- Initial pir_status value. -/
def PirStatus.init : PirStatus where
  motion_detected := false
  last_motion_time := 0
  no_motion_duration := 0

/-- One polling iteration of pir_monitoring_task (pir_module.c, lines 43-69):
current_motion is the GPIO reading, current_time is get_time_seconds(). -/
def pir_monitoring_step (st : PirStatus) (current_motion : Bool) (current_time : ℕ) :
    PirStatus :=
  if current_motion then
    if ¬st.motion_detected then
      { st with motion_detected := true, last_motion_time := current_time,
                no_motion_duration := 0 }
    else
      st
  else
    let st :=
      if st.motion_detected then
        { st with motion_detected := false, last_motion_time := current_time }
      else
        st
    if st.last_motion_time > 0 then
      { st with no_motion_duration := current_time - st.last_motion_time }
    else
      st

/-- get_time_seconds() at the k-th PIR tick: the task starts at millisecond
time t0 and polls every 500 ms; seconds are the truncated division. -/
def pirTime (t0 k : ℕ) : ℕ := (t0 + CONFIG_PIR_POLL_INTERVAL_MS * k) / 1000

/-- PIR status after tick k when tick k reads readings k. -/
def pirRun (readings : ℕ → Bool) (t0 : ℕ) : ℕ → PirStatus
  | 0 => pir_monitoring_step PirStatus.init (readings 0) (pirTime t0 0)
  | k + 1 => pir_monitoring_step (pirRun readings t0 k) (readings (k + 1)) (pirTime t0 (k + 1))

/-- pir_is_motion_detected (pir_module.c, lines 156-159). -/
def pir_is_motion_detected (pir_module_initialized : Bool) (st : PirStatus) : Bool :=
  if pir_module_initialized then st.motion_detected else false

/-- pir_get_time_since_last_motion (pir_module.c, lines 161-164). -/
def pir_get_time_since_last_motion (pir_module_initialized : Bool) (st : PirStatus) : ℕ :=
  if pir_module_initialized then st.no_motion_duration else 0

/-! ## Wi-Fi connectivity manager (src: wifi_module.c) -/

/-- wifi_status_t (wifi_module.h). -/
inductive WifiStatus where
  | disconnected
  | connecting
  | connected
  | failed
  | error
deriving DecidableEq

/-- Outcome of an esp_wifi_connect() call as discriminated by wifi_task:
ESP_OK, ESP_ERR_WIFI_CONN (already connected), or any other error. -/
inductive ConnectResult where
  | connOk
  | connAlready
  | connErr
deriving DecidableEq

/-- The module-level mutable state of wifi_module.c: the published
wifi_info_t (status, rssi, retry_count, ip_address — the string modelled by
the flag ip_set), the statics s_retry_num, s_wifi_initialized,
s_connection_requested, s_retry_delay_ms, the task-local
rssi_update_counter, and a ghost counter of esp_wifi_connect() calls used to
observe automatic connection attempts. -/
structure WifiState where
  status : WifiStatus
  rssi : ℤ
  retry_count : ℕ
  ip_set : Bool
  retry_num : ℕ
  initialized : Bool
  connection_requested : Bool
  retry_delay_ms : ℕ
  rssi_counter : ℕ
  attempts : ℕ
deriving DecidableEq

/-- State established by a successful wifi_module_init (wifi_module.c):
status DISCONNECTED, rssi INT8_MIN, counters cleared, delay at the initial
value. -/
def WifiState.afterInit : WifiState where
  status := WifiStatus.disconnected
  rssi := -128
  retry_count := 0
  ip_set := false
  retry_num := 0
  initialized := true
  connection_requested := false
  retry_delay_ms := CONFIG_WIFI_INITIAL_RETRY_MS
  rssi_counter := 0
  attempts := 0

/-- The adaptive retry-delay update, duplicated verbatim at both failure
sites of the source: s_retry_delay_ms = (s_retry_delay_ms * 3) / 2, clamped
to CONFIG_WIFI_MAX_RETRY_MS. -/
def nextRetryDelay (d : ℕ) : ℕ :=
  let d2 := d * 3 / 2
  if d2 > CONFIG_WIFI_MAX_RETRY_MS then CONFIG_WIFI_MAX_RETRY_MS else d2

/-- event_handler on WIFI_EVENT_STA_START (wifi_module.c, lines 58-61):
calls esp_wifi_connect (counted as an attempt) and publishes CONNECTING. -/
def wifi_event_sta_start (st : WifiState) : WifiState :=
  { st with attempts := st.attempts + 1, status := WifiStatus.connecting }

/-- event_handler on WIFI_EVENT_STA_DISCONNECTED (wifi_module.c, lines
62-105): one link failure.  Below the retry limit it grows the adaptive
delay and re-enables connection attempts; at the limit it publishes FAILED. -/
def wifi_event_sta_disconnected (st : WifiState) : WifiState :=
  if st.retry_num < CONFIG_WIFI_MAXIMUM_RETRY then
    { st with retry_delay_ms := nextRetryDelay st.retry_delay_ms,
              connection_requested := true }
  else
    { st with status := WifiStatus.failed }

/-- event_handler on IP_EVENT_STA_GOT_IP (wifi_module.c, lines 106-126): a
successful connection.  ap_rssi is the esp_wifi_sta_get_ap_info result. -/
def wifi_event_got_ip (ap_rssi : Option ℤ) (st : WifiState) : WifiState :=
  let st := { st with ip_set := true }
  let st :=
    match ap_rssi with
    | some r => { st with rssi := r }
    | none => st
  { st with status := WifiStatus.connected, retry_num := 0, retry_count := 0,
            retry_delay_ms := CONFIG_WIFI_INITIAL_RETRY_MS,
            connection_requested := false }

/-- One iteration of the wifi_task loop (wifi_module.c, lines 135-205).
res is the esp_wifi_connect() outcome when an attempt is made, ap_rssi the
AP record for the periodic RSSI refresh.  The iteration is atomic in this
embedding, so the source's re-check of the status after the retry delay
(which can only observe a concurrent change) cannot fire and is omitted;
log-only statements are dropped. -/
def wifi_task_iteration (st : WifiState) (res : ConnectResult) (ap_rssi : Option ℤ) :
    WifiState :=
  let st :=
    if st.connection_requested ∧ st.status ≠ WifiStatus.connected then
      if st.retry_num < CONFIG_WIFI_MAXIMUM_RETRY then
        let st := { st with attempts := st.attempts + 1 }
        match res with
        | ConnectResult.connAlready =>
          let st := { st with connection_requested := false }
          if st.status ≠ WifiStatus.connected then
            { st with status := WifiStatus.connected }
          else
            st
        | ConnectResult.connErr =>
          { st with retry_num := st.retry_num + 1, retry_count := st.retry_num + 1,
                    retry_delay_ms := nextRetryDelay st.retry_delay_ms }
        | ConnectResult.connOk =>
          { st with retry_num := st.retry_num + 1, retry_count := st.retry_num + 1,
                    status := WifiStatus.connecting }
      else
        { st with connection_requested := false, status := WifiStatus.failed }
    else
      st
  let st := { st with rssi_counter := st.rssi_counter + 1 }
  if st.rssi_counter ≥ 5 ∧ st.status = WifiStatus.connected then
    let st := { st with rssi_counter := 0 }
    match ap_rssi with
    | some r => { st with rssi := r }
    | none => st
  else
    st

/-- wifi_module_connect (wifi_module.c, lines 300-332); start_ok is the
esp_wifi_start() outcome.  Returns the new state (the esp_err_t result is
ESP_FAIL exactly when not initialized, else failure of esp_wifi_start). -/
def wifi_module_connect (start_ok : Bool) (st : WifiState) : WifiState :=
  if ¬st.initialized then
    st
  else if st.status = WifiStatus.connected then
    st
  else
    let st := { st with retry_num := 0, retry_count := 0,
                        retry_delay_ms := CONFIG_WIFI_INITIAL_RETRY_MS,
                        status := WifiStatus.connecting, connection_requested := true }
    if start_ok then
      st
    else
      { st with status := WifiStatus.error, connection_requested := false }

/-- wifi_module_disconnect (wifi_module.c, lines 334-357); disconnect_ok is
the esp_wifi_disconnect() outcome. -/
def wifi_module_disconnect (disconnect_ok : Bool) (st : WifiState) : WifiState :=
  if ¬st.initialized then
    st
  else
    let st := { st with connection_requested := false }
    if disconnect_ok then
      { st with status := WifiStatus.disconnected, rssi := -128, retry_count := 0,
                retry_num := 0, retry_delay_ms := CONFIG_WIFI_INITIAL_RETRY_MS,
                ip_set := false }
    else
      st

/-- wifi_module_reconnect (wifi_module.c, lines 418-442): valid whenever
initialized; resets the retry parameters, requests connection (after an
esp_wifi_disconnect if currently connected, which changes no module state)
and publishes CONNECTING. -/
def wifi_module_reconnect (st : WifiState) : WifiState :=
  if ¬st.initialized then
    st
  else
    let st := { st with retry_num := 0, retry_count := 0,
                        retry_delay_ms := CONFIG_WIFI_INITIAL_RETRY_MS,
                        connection_requested := true }
    { st with status := WifiStatus.connecting }

/-- The events the connectivity manager reacts to: the three registered
event-handler cases, one background-task iteration, and the three caller
operations. -/
inductive WifiEvent where
  | staStart
  | staDisconnected
  | gotIp (ap_rssi : Option ℤ)
  | taskTick (res : ConnectResult) (ap_rssi : Option ℤ)
  | connectCall (start_ok : Bool)
  | disconnectCall (disconnect_ok : Bool)
  | reconnectCall
deriving DecidableEq

/-- Transition of the connectivity manager on one event. -/
def wifiStep (st : WifiState) : WifiEvent → WifiState
  | WifiEvent.staStart => wifi_event_sta_start st
  | WifiEvent.staDisconnected => wifi_event_sta_disconnected st
  | WifiEvent.gotIp r => wifi_event_got_ip r st
  | WifiEvent.taskTick res r => wifi_task_iteration st res r
  | WifiEvent.connectCall ok => wifi_module_connect ok st
  | WifiEvent.disconnectCall ok => wifi_module_disconnect ok st
  | WifiEvent.reconnectCall => wifi_module_reconnect st

/-- Run a list of events. -/
def wifiRun (st : WifiState) : List WifiEvent → WifiState
  | [] => st
  | e :: es => wifiRun (wifiStep st e) es

/-- The canonical consecutive-failure scenario: connect(), then n cycles of
a task-driven connection attempt followed by an asynchronous link failure. -/
def failTrace : ℕ → List WifiEvent
  | 0 => [WifiEvent.connectCall true]
  | n + 1 => failTrace n ++
      [WifiEvent.taskTick ConnectResult.connOk none, WifiEvent.staDisconnected]

/-! ## Status-string formatters -/

/-- snprintf(buffer, n, ...) truncation: with n = 0 nothing is written, else
at most n - 1 characters plus the terminator. -/
def snprintfModel (buffer_size : ℕ) (s : String) : String :=
  if buffer_size = 0 then ("") else s.take (buffer_size - 1)

/-- pir_get_status_string (pir_module.c, lines 137-154).  Result is
(ok, buffer contents); ok = false models ESP_FAIL, in which case the C code
leaves the buffer untouched (modelled as the empty string). -/
def pir_get_status_string (pir_module_initialized : Bool) (buffer_null : Bool)
    (buffer_size : ℕ) (st : PirStatus) : Bool × String :=
  if ¬pir_module_initialized ∨ buffer_null ∨ buffer_size < 32 then
    (false, "")
  else if st.motion_detected then
    (true, snprintfModel buffer_size ("PIR: Yes"))
  else if st.no_motion_duration = 0 then
    (true, snprintfModel buffer_size ("PIR: No"))
  else
    (true, snprintfModel buffer_size ("PIR: No (" ++ toString st.no_motion_duration ++ "s ago)"))

/-- mpu6050_get_status_string (mpu6050_module.c, lines 304-325).  On the
error path the C code still snprintf-s "MPU: Error" into the buffer (when it
is non-null) and returns ESP_FAIL. -/
def mpu6050_get_status_string (module_initialized : Bool) (buffer_null : Bool)
    (buffer_size : ℕ) (handle_present : Bool) (st : MotionState) : Bool × String :=
  if ¬module_initialized ∨ buffer_null ∨ buffer_size < 32 then
    (false, if buffer_null then ("") else snprintfModel buffer_size ("MPU: Error"))
  else if ¬handle_present then
    (true, snprintfModel buffer_size ("MPU: Offline"))
  else if st.tap_detected then
    (true, snprintfModel buffer_size ("MPU: Tap"))
  else if st.shake_detected then
    (true, snprintfModel buffer_size ("MPU: Shake"))
  else
    (true, snprintfModel buffer_size ("MPU: Ready"))

/-- wifi_get_status_string (wifi_module.c, lines 369-406).  Result false
models ESP_ERR_INVALID_ARG; note the function never consults
s_wifi_initialized and rejects only a null buffer or zero capacity. -/
def wifi_get_status_string (buffer_null : Bool) (buffer_size : ℕ) (st : WifiState) :
    Bool × String :=
  if buffer_null ∨ buffer_size = 0 then
    (false, "")
  else
    match st.status with
    | WifiStatus.disconnected => (true, snprintfModel buffer_size ("WiFi: Off"))
    | WifiStatus.connecting =>
      (true, snprintfModel buffer_size
        ("WiFi: Connecting... (" ++ toString st.retry_count ++ "/" ++
          toString CONFIG_WIFI_MAXIMUM_RETRY ++ ")"))
    | WifiStatus.connected =>
      if st.rssi > -50 then
        (true, snprintfModel buffer_size ("WiFi: Excellent (" ++ toString st.rssi ++ " dBm)"))
      else if st.rssi > -70 then
        (true, snprintfModel buffer_size ("WiFi: Good (" ++ toString st.rssi ++ " dBm)"))
      else if st.rssi > -80 then
        (true, snprintfModel buffer_size ("WiFi: Fair (" ++ toString st.rssi ++ " dBm)"))
      else
        (true, snprintfModel buffer_size ("WiFi: Weak (" ++ toString st.rssi ++ " dBm)"))
    | WifiStatus.failed => (true, snprintfModel buffer_size ("WiFi: Failed"))
    | WifiStatus.error => (true, snprintfModel buffer_size ("WiFi: Error"))

/-! ## Concrete scenario streams -/

/-- Stream exhibiting a tap transient exactly at the shake-confirmation tick:
continuous x-axis activity (change 1/4 per tick) from tick 1 on, plus a
z-axis jump of 1/4 at tick 11.  With start time 1000 ms the shake started at
tick 1 is confirmed at tick 11 (elapsed 500 ms), the same tick accepting the
tap. -/
def c1Stream : ℕ → AccelSample :=
  fun k => { acce_x := (k : ℚ) / 4, acce_y := 0, acce_z := if k < 11 then 1 else 5 / 4 }

/-- Alternating x readings: acceleration change of magnitude 1 at every tick
from tick 1 on — continuous shake activity. -/
def c2WitnessStream : ℕ → AccelSample :=
  fun k => { acce_x := if k % 2 = 0 then 0 else 1, acce_y := 0, acce_z := 1 }

/-- A single isolated z-axis transient of magnitude 1 at tick 5: all other
ticks have zero acceleration change. -/
def c3WitnessStream : ℕ → AccelSample :=
  fun k => { acce_x := 0, acce_y := 0, acce_z := if k < 5 then 1 else 2 }

/-- A single isolated z-axis transient of magnitude 1 at tick 1 — during the
cold-start debounce window when the task starts at time 0. -/
def c3ColdStream : ℕ → AccelSample :=
  fun k => { acce_x := 0, acce_y := 0, acce_z := if k < 1 then 1 else 2 }

/-- Shake activity (x change of magnitude 1) exactly at ticks 1..12, zero
change afterwards: a confirmed shake whose physical activity then ceases. -/
def c4WitnessStream : ℕ → AccelSample :=
  fun k => { acce_x := if k ≤ 12 then (if k % 2 = 0 then 0 else 1) else 0,
             acce_y := 0, acce_z := 1 }

/-- The explicit gesture-detector state reached after tick k on a stream
whose only tap transient and only shake activity are at tick j (j ≥ 1, tap
accepted because t0 + 50 * j exceeds the debounce window measured from
last_tap_time = 0): the tap is displayed for ticks j..j+15, the transient's
one-tick shake activity is reset by the shake timeout at tick j + 11, and no
shake is ever confirmed. -/
def C3state (s : ℕ → AccelSample) (t0 j k : ℕ) : MotionState where
  shake_detected := false
  tap_detected := decide (j ≤ k ∧ k < j + 16)
  last_motion_time := if j ≤ k then (t0 + 50 * j) / 1000 else 0
  last_shake_activity_time := if j ≤ k then t0 + 50 * j else 0
  last_tap_time := if j ≤ k then t0 + 50 * j else 0
  tap_display_start := if j ≤ k ∧ k < j + 16 then t0 + 50 * j else 0
  shake_start_time := if j ≤ k ∧ k ≤ j + 10 then t0 + 50 * j else 0
  shake_display_start := 0
  is_shaking := false
  prev_ax := (s k).acce_x
  prev_ay := (s k).acce_y
  prev_az := (s k).acce_z
  first_run := false
  prev_tap_z := (s k).acce_z
  tap_first_run := false

/-- The update of the detect_shake_activity statics: the previous sample
memory always holds the last sample, and first_run is cleared. -/
def seedUpdate (st : MotionState) (sample : AccelSample) : MotionState :=
  { st with prev_ax := sample.acce_x, prev_ay := sample.acce_y, prev_az := sample.acce_z,
            first_run := false }

/-- An update of the detect_tap statics, used to frame the unknown tap
bookkeeping when reasoning about the shake side of a tick. -/
def tapStatics (st : MotionState) (z : ℚ) (fr : Bool) (lt : ℕ) : MotionState :=
  { st with prev_tap_z := z, tap_first_run := fr, last_tap_time := lt }

/-- An update of the fields blocks 3 and 4 may write, used to frame the
unknown tap outcome of a tick. -/
def tapResult (st : MotionState) (td : Bool) (lm tds : ℕ) : MotionState :=
  { st with tap_detected := td, last_motion_time := lm, tap_display_start := tds }

/-- Witness readings for the presence detector: present at tick 0 only. -/
def c5Readings : ℕ → Bool := fun i => decide (i = 0)

/-! ## Evaluation and frame lemmas for the gesture-detector blocks -/

theorem shake_activity_seed (st : MotionState) (hfr : st.first_run = true) (ax ay az : ℚ) :
    detect_shake_activity st ax ay az =
      (false, { st with prev_ax := ax, prev_ay := ay, prev_az := az, first_run := false }) := by
  simp [detect_shake_activity, hfr]

theorem shake_activity_eval (st : MotionState) (hfr : st.first_run = false) (ax ay az : ℚ) :
    detect_shake_activity st ax ay az =
      (decide (|ax - st.prev_ax| ^ 2 + |ay - st.prev_ay| ^ 2 + |az - st.prev_az| ^ 2 >
        CONFIG_MPU6050_SHAKE_THRESHOLD ^ 2),
       { st with prev_ax := ax, prev_ay := ay, prev_az := az }) := by
  simp [detect_shake_activity, hfr]

theorem shake_activity_true (st : MotionState) (hfr : st.first_run = false) (ax ay az : ℚ)
    (h : CONFIG_MPU6050_SHAKE_THRESHOLD ^ 2 <
      (ax - st.prev_ax) ^ 2 + (ay - st.prev_ay) ^ 2 + (az - st.prev_az) ^ 2) :
    detect_shake_activity st ax ay az =
      (true, { st with prev_ax := ax, prev_ay := ay, prev_az := az }) := by
  rw [shake_activity_eval st hfr]
  simp [h]

theorem shake_activity_false (st : MotionState) (hfr : st.first_run = false) (ax ay az : ℚ)
    (h : (ax - st.prev_ax) ^ 2 + (ay - st.prev_ay) ^ 2 + (az - st.prev_az) ^ 2 ≤
      CONFIG_MPU6050_SHAKE_THRESHOLD ^ 2) :
    detect_shake_activity st ax ay az =
      (false, { st with prev_ax := ax, prev_ay := ay, prev_az := az }) := by
  rw [shake_activity_eval st hfr]
  simp [h]

theorem detect_tap_shaking (st : MotionState) (h : st.is_shaking = true) (az : ℚ) (now : ℕ) :
    detect_tap st az now = (false, st) := by
  simp [detect_tap, h]

theorem detect_tap_seed (st : MotionState) (h1 : st.is_shaking = false)
    (h2 : st.tap_first_run = true) (az : ℚ) (now : ℕ) :
    detect_tap st az now = (false, { st with prev_tap_z := az, tap_first_run := false }) := by
  simp [detect_tap, h1, h2]

theorem detect_tap_small (st : MotionState) (h1 : st.is_shaking = false)
    (h2 : st.tap_first_run = false) (az : ℚ) (now : ℕ)
    (h3 : ¬(CONFIG_MPU6050_TAP_Z_THRESHOLD < |az - st.prev_tap_z|)) :
    detect_tap st az now = (false, { st with prev_tap_z := az }) := by
  simp [detect_tap, h1, h2, gt_iff_lt, h3]

theorem detect_tap_accept (st : MotionState) (h1 : st.is_shaking = false)
    (h2 : st.tap_first_run = false) (az : ℚ) (now : ℕ)
    (h3 : CONFIG_MPU6050_TAP_Z_THRESHOLD < |az - st.prev_tap_z|)
    (h4 : CONFIG_MPU6050_TAP_DEBOUNCE_MS < now - st.last_tap_time) :
    detect_tap st az now =
      (true, { st with prev_tap_z := az, last_tap_time := now }) := by
  simp [detect_tap, h1, h2, gt_iff_lt, h3, h4]

theorem detect_tap_debounced (st : MotionState) (h1 : st.is_shaking = false)
    (h2 : st.tap_first_run = false) (az : ℚ) (now : ℕ)
    (h3 : CONFIG_MPU6050_TAP_Z_THRESHOLD < |az - st.prev_tap_z|)
    (h4 : ¬(CONFIG_MPU6050_TAP_DEBOUNCE_MS < now - st.last_tap_time)) :
    detect_tap st az now = (false, { st with prev_tap_z := az }) := by
  simp [detect_tap, h1, h2, gt_iff_lt, h3, h4]

/-- detect_tap only ever touches the tap statics (prev_tap_z, tap_first_run,
last_tap_time); every other field of the state is unchanged. -/
theorem detect_tap_snd_exists (st : MotionState) (az : ℚ) (now : ℕ) :
    ∃ z fr lt, (detect_tap st az now).2 =
      { st with prev_tap_z := z, tap_first_run := fr, last_tap_time := lt } := by
  simp only [detect_tap]
  split_ifs <;> exact ⟨_, _, _, rfl⟩

/-- Block 2 with activity and no running shake timer: the timer starts now;
confirmation cannot trigger on the same tick (elapsed time 0 < 500 ms). -/
theorem shake_state_update_start (st : MotionState) (now : ℕ)
    (h0 : st.shake_start_time = 0) :
    shake_state_update st true now =
      { st with shake_start_time := now, last_shake_activity_time := now } := by
  simp [shake_state_update, h0, CONFIG_MPU6050_SHAKE_MIN_DURATION_MS]

/-- Block 2 with activity, running timer, not yet confirmed. -/
theorem shake_state_update_pending (st : MotionState) (now : ℕ)
    (h0 : st.shake_start_time ≠ 0) (h1 : st.is_shaking = false)
    (h2 : now - st.shake_start_time < CONFIG_MPU6050_SHAKE_MIN_DURATION_MS) :
    shake_state_update st true now = { st with last_shake_activity_time := now } := by
  simp [shake_state_update, h0, h1, Nat.not_le.mpr h2]

/-- Block 2 with activity while confirmed shaking: only the last-activity
timestamp refreshes. -/
theorem shake_state_update_shaking (st : MotionState) (now : ℕ)
    (h0 : st.shake_start_time ≠ 0) (h1 : st.is_shaking = true) :
    shake_state_update st true now = { st with last_shake_activity_time := now } := by
  simp [shake_state_update, h0, h1]

/-- Block 2, the confirmation tick. -/
theorem shake_state_update_confirm (st : MotionState) (now : ℕ)
    (h0 : st.shake_start_time ≠ 0) (h1 : st.is_shaking = false)
    (h2 : CONFIG_MPU6050_SHAKE_MIN_DURATION_MS ≤ now - st.shake_start_time) :
    shake_state_update st true now =
      { st with last_shake_activity_time := now, is_shaking := true, shake_detected := true,
                tap_detected := false, last_motion_time := now / 1000,
                shake_display_start := now } := by
  simp [shake_state_update, h0, h1, h2]

/-- Block 2 with no activity and either no running timer or no timeout yet:
the state is unchanged. -/
theorem shake_state_update_idle (st : MotionState) (now : ℕ)
    (h : st.shake_start_time = 0 ∨
      now - st.last_shake_activity_time ≤ CONFIG_MPU6050_SHAKE_TIMEOUT_MS) :
    shake_state_update st false now = st := by
  rcases h with h | h
  · simp [shake_state_update, h]
  · simp [shake_state_update, Nat.not_lt.mpr h]

/-- Block 2, activity timeout with no display hold pending. -/
theorem shake_state_update_timeout_clear (st : MotionState) (now : ℕ)
    (h0 : 0 < st.shake_start_time)
    (h1 : CONFIG_MPU6050_SHAKE_TIMEOUT_MS < now - st.last_shake_activity_time)
    (h2 : st.shake_display_start = 0 ∨
      CONFIG_MPU6050_SHAKE_DISPLAY_MS ≤ now - st.shake_display_start) :
    shake_state_update st false now =
      { st with shake_start_time := 0, is_shaking := false, shake_detected := false,
                shake_display_start := 0 } := by
  rcases h2 with h2 | h2
  · simp [shake_state_update, h0, h1, h2]
  · simp [shake_state_update, h0, h1, Nat.not_lt.mpr h2]

/-- Block 2, activity timeout inside the display-hold window. -/
theorem shake_state_update_timeout_hold (st : MotionState) (now : ℕ)
    (h0 : 0 < st.shake_start_time)
    (h1 : CONFIG_MPU6050_SHAKE_TIMEOUT_MS < now - st.last_shake_activity_time)
    (h2 : 0 < st.shake_display_start)
    (h3 : now - st.shake_display_start < CONFIG_MPU6050_SHAKE_DISPLAY_MS) :
    shake_state_update st false now =
      { st with shake_start_time := 0, is_shaking := false, shake_detected := true } := by
  simp [shake_state_update, h0, h1, h2, h3]

/-- Block 5 does nothing unless the display flag, timer and not-shaking
condition all hold together with an expired display window. -/
theorem shake_display_timeout_id (st : MotionState) (now : ℕ)
    (h : st.shake_detected = false ∨ st.shake_display_start = 0 ∨ st.is_shaking = true ∨
      now - st.shake_display_start < CONFIG_MPU6050_SHAKE_DISPLAY_MS) :
    shake_display_timeout st now = st := by
  unfold shake_display_timeout
  split_ifs with hc hd
  · exfalso
    obtain ⟨c1, c2, c3⟩ := hc
    rcases h with h | h | h | h
    · simp [h] at c1
    · omega
    · simp [h] at c3
    · omega
  · rfl
  · rfl

/-- Block 5, expiry of the display hold. -/
theorem shake_display_timeout_clear (st : MotionState) (now : ℕ)
    (h0 : st.shake_detected = true) (h1 : 0 < st.shake_display_start)
    (h2 : st.is_shaking = false)
    (h3 : CONFIG_MPU6050_SHAKE_DISPLAY_MS ≤ now - st.shake_display_start) :
    shake_display_timeout st now =
      { st with shake_detected := false, shake_display_start := 0 } := by
  simp [shake_display_timeout, h0, h1, h2, h3]

theorem tap_event_update_false (st : MotionState) (now : ℕ) :
    tap_event_update st false now = st := by
  simp [tap_event_update]

theorem tap_event_update_true (st : MotionState) (now : ℕ) :
    tap_event_update st true now =
      { st with tap_detected := true, last_motion_time := now / 1000,
                tap_display_start := now } := by
  simp [tap_event_update]

/-- Block 3 never touches the shake side of the state. -/
theorem tap_event_update_exists (st : MotionState) (b : Bool) (now : ℕ) :
    ∃ td lm tds, tap_event_update st b now =
      { st with tap_detected := td, last_motion_time := lm, tap_display_start := tds } := by
  unfold tap_event_update
  split_ifs <;> exact ⟨_, _, _, rfl⟩

theorem tap_display_timeout_id (st : MotionState) (now : ℕ)
    (h : st.tap_detected = false ∨ st.tap_display_start = 0 ∨
      now - st.tap_display_start < CONFIG_MPU6050_TAP_DISPLAY_MS) :
    tap_display_timeout st now = st := by
  unfold tap_display_timeout
  split_ifs with hc hd
  · exfalso
    obtain ⟨c1, c2⟩ := hc
    rcases h with h | h | h
    · simp [h] at c1
    · omega
    · omega
  · rfl
  · rfl

theorem tap_display_timeout_clear (st : MotionState) (now : ℕ)
    (h0 : st.tap_detected = true) (h1 : 0 < st.tap_display_start)
    (h2 : CONFIG_MPU6050_TAP_DISPLAY_MS ≤ now - st.tap_display_start) :
    tap_display_timeout st now =
      { st with tap_detected := false, tap_display_start := 0 } := by
  simp [tap_display_timeout, h0, h1, h2]

/-- Block 4 never touches the shake side of the state. -/
theorem tap_display_timeout_exists (st : MotionState) (now : ℕ) :
    ∃ td tds, tap_display_timeout st now =
      { st with tap_detected := td, tap_display_start := tds } := by
  unfold tap_display_timeout
  split_ifs <;> exact ⟨_, _, rfl⟩

/-- detect_shake_activity always leaves the statics in seedUpdate shape when
the memory was already seeded. -/
theorem shake_activity_eval' (st : MotionState) (hfr : st.first_run = false)
    (sample : AccelSample) :
    detect_shake_activity st sample.acce_x sample.acce_y sample.acce_z =
      (decide (|sample.acce_x - st.prev_ax| ^ 2 + |sample.acce_y - st.prev_ay| ^ 2 +
        |sample.acce_z - st.prev_az| ^ 2 > CONFIG_MPU6050_SHAKE_THRESHOLD ^ 2),
       seedUpdate st sample) := by
  rw [shake_activity_eval st hfr]
  simp [seedUpdate, hfr]

theorem detect_tap_snd_tapStatics (st : MotionState) (az : ℚ) (now : ℕ) :
    ∃ z fr lt, (detect_tap st az now).2 = tapStatics st z fr lt := by
  obtain ⟨z, fr, lt, h⟩ := detect_tap_snd_exists st az now
  exact ⟨z, fr, lt, by rw [h]; rfl⟩

/-- Blocks 3 and 4 together only rewrite the tapResult fields. -/
theorem tap_blocks_exists (st : MotionState) (b : Bool) (now : ℕ) :
    ∃ td lm tds, tap_display_timeout (tap_event_update st b now) now =
      tapResult st td lm tds := by
  obtain ⟨td1, lm1, tds1, h1⟩ := tap_event_update_exists st b now
  obtain ⟨td2, tds2, h2⟩ := tap_display_timeout_exists (tap_event_update st b now) now
  refine ⟨td2, lm1, tds2, ?_⟩
  rw [h2, h1]
  rfl

/-- One full tick, decomposed: the sample memory is refreshed, the tap
statics and the block 3/4 output fields take some (unconstrained) values,
and in between the two shake blocks run on the combined state with the
activity flag computed from the change against the previous sample. -/
theorem motionStep_decomp (st : MotionState) (sample : AccelSample) (now : ℕ)
    (hfr : st.first_run = false) :
    ∃ z fr lt td lm tds,
      motionStep st sample now =
        tapResult (shake_display_timeout (shake_state_update
            (tapStatics (seedUpdate st sample) z fr lt)
            (decide (|sample.acce_x - st.prev_ax| ^ 2 + |sample.acce_y - st.prev_ay| ^ 2 +
              |sample.acce_z - st.prev_az| ^ 2 > CONFIG_MPU6050_SHAKE_THRESHOLD ^ 2)) now) now)
          td lm tds := by
  obtain ⟨z, fr, lt, hB⟩ := detect_tap_snd_tapStatics (seedUpdate st sample) sample.acce_z now
  obtain ⟨td, lm, tds, hC⟩ := tap_blocks_exists
    (shake_display_timeout (shake_state_update (tapStatics (seedUpdate st sample) z fr lt)
      (decide (|sample.acce_x - st.prev_ax| ^ 2 + |sample.acce_y - st.prev_ay| ^ 2 +
        |sample.acce_z - st.prev_az| ^ 2 > CONFIG_MPU6050_SHAKE_THRESHOLD ^ 2)) now) now)
    ((detect_tap (seedUpdate st sample) sample.acce_z now).1) now
  refine ⟨z, fr, lt, td, lm, tds, ?_⟩
  simp only [motionStep, motion_tick, shake_activity_eval' st hfr sample]
  rw [hB, hC]


theorem C2_state (s : ℕ → AccelSample) (t0 : ℕ)
    (hact : ∀ k, 1 ≤ k → CONFIG_MPU6050_SHAKE_THRESHOLD ^ 2 < deltaSq s k) :
    ∀ k, (motionRun s t0 k).first_run = false ∧
      (motionRun s t0 k).prev_ax = (s k).acce_x ∧
      (motionRun s t0 k).prev_ay = (s k).acce_y ∧
      (motionRun s t0 k).prev_az = (s k).acce_z ∧
      (motionRun s t0 k).is_shaking = decide (11 ≤ k) ∧
      (motionRun s t0 k).shake_detected = decide (11 ≤ k) ∧
      (motionRun s t0 k).shake_start_time = (if k = 0 then 0 else t0 + 50) ∧
      (motionRun s t0 k).shake_display_start = (if 11 ≤ k then t0 + 550 else 0) := by
  intro k
  induction k with
  | zero =>
    simp [motionRun, motionStep, motion_tick, detect_shake_activity, detect_tap,
      shake_state_update, shake_display_timeout, tap_event_update, tap_display_timeout,
      MotionState.init, CONFIG_MPU6050_POLL_INTERVAL_MS]
  | succ k ih =>
    obtain ⟨ihf, ihx, ihy, ihz, ihsh, ihsd, ihst, ihdp⟩ := ih
    obtain ⟨z, fr, lt, td, lm, tds, hstep⟩ :=
      motionStep_decomp (motionRun s t0 k) (s (k + 1)) (t0 + 50 * (k + 1)) ihf
    have hdec : decide (|(s (k + 1)).acce_x - (motionRun s t0 k).prev_ax| ^ 2 +
        |(s (k + 1)).acce_y - (motionRun s t0 k).prev_ay| ^ 2 +
        |(s (k + 1)).acce_z - (motionRun s t0 k).prev_az| ^ 2 >
        CONFIG_MPU6050_SHAKE_THRESHOLD ^ 2) = true := by
      rw [decide_eq_true_eq, ihx, ihy, ihz]
      have h1 := hact (k + 1) (by omega)
      simpa [deltaSq, sq_abs] using h1
    rw [hdec] at hstep
    have hrun : motionRun s t0 (k + 1) =
        motionStep (motionRun s t0 k) (s (k + 1)) (t0 + 50 * (k + 1)) := by
      simp [motionRun, CONFIG_MPU6050_POLL_INTERVAL_MS]
    rw [hrun, hstep]
    rcases Nat.lt_or_ge k 11 with hk | hk
    · rcases Nat.eq_zero_or_pos k with hk0 | hk0
      · subst hk0
        rw [shake_state_update_start _ _ (by simp [tapStatics, seedUpdate, ihst])]
        rw [shake_display_timeout_id _ _ (Or.inl (by simp [tapStatics, seedUpdate, ihsd]))]
        simp [tapResult, tapStatics, seedUpdate, ihf, ihsh, ihsd, ihst, ihdp]
      · rcases Nat.lt_or_ge k 10 with hk9 | hk10
        · -- 1 ≤ k ≤ 9 : timer pending
          have hk0' : k ≠ 0 := by omega
          have hn1 : ¬(11 ≤ k) := by omega
          have hn2 : ¬(11 ≤ k + 1) := by omega
          have hs1 : k + 1 ≠ 0 := by omega
          rw [shake_state_update_pending _ _
            (by simp [tapStatics, seedUpdate, ihst, hk0'])
            (by simp [tapStatics, seedUpdate, ihsh, hn1])
            (by simp [tapStatics, seedUpdate, ihst, hk0',
                  CONFIG_MPU6050_SHAKE_MIN_DURATION_MS]; omega)]
          rw [shake_display_timeout_id _ _ (Or.inl
            (by simp [tapStatics, seedUpdate, ihsd, hn1]))]
          refine ⟨by simp [tapResult, tapStatics, seedUpdate, ihf],
            by simp [tapResult, tapStatics, seedUpdate],
            by simp [tapResult, tapStatics, seedUpdate],
            by simp [tapResult, tapStatics, seedUpdate],
            by simp [tapResult, tapStatics, seedUpdate, ihsh, hn1, hn2],
            by simp [tapResult, tapStatics, seedUpdate, ihsd, hn1, hn2],
            by simp [tapResult, tapStatics, seedUpdate, ihst, hk0', hs1],
            by simp [tapResult, tapStatics, seedUpdate, ihdp, hn1, hn2]⟩
        · -- k = 10 : confirmation tick
          have hk10e : k = 10 := by omega
          subst hk10e
          rw [shake_state_update_confirm _ _
            (by simp [tapStatics, seedUpdate, ihst])
            (by simp [tapStatics, seedUpdate, ihsh])
            (by simp [tapStatics, seedUpdate, ihst, CONFIG_MPU6050_SHAKE_MIN_DURATION_MS])]
          rw [shake_display_timeout_id _ _ (Or.inr (Or.inr (Or.inl (by simp [tapStatics,
            seedUpdate]))))]
          refine ⟨by simp [tapResult, tapStatics, seedUpdate, ihf],
            by simp [tapResult, tapStatics, seedUpdate],
            by simp [tapResult, tapStatics, seedUpdate],
            by simp [tapResult, tapStatics, seedUpdate],
            by simp [tapResult, tapStatics, seedUpdate],
            by simp [tapResult, tapStatics, seedUpdate],
            by simp [tapResult, tapStatics, seedUpdate, ihst],
            by simp [tapResult, tapStatics, seedUpdate]⟩
    · -- 11 ≤ k : already confirmed shaking
      have hk0' : k ≠ 0 := by omega
      have hs1 : k + 1 ≠ 0 := by omega
      have hp1 : 11 ≤ k := hk
      have hp2 : 11 ≤ k + 1 := by omega
      rw [shake_state_update_shaking _ _
        (by simp [tapStatics, seedUpdate, ihst, hk0'])
        (by simp [tapStatics, seedUpdate, ihsh, hp1])]
      rw [shake_display_timeout_id _ _ (Or.inr (Or.inr (Or.inl
        (by simp [tapStatics, seedUpdate, ihsh, hp1]))))]
      refine ⟨by simp [tapResult, tapStatics, seedUpdate, ihf],
        by simp [tapResult, tapStatics, seedUpdate],
        by simp [tapResult, tapStatics, seedUpdate],
        by simp [tapResult, tapStatics, seedUpdate],
        by simp [tapResult, tapStatics, seedUpdate, ihsh, hp1, hp2],
        by simp [tapResult, tapStatics, seedUpdate, ihsd, hp1, hp2],
        by simp [tapResult, tapStatics, seedUpdate, ihst, hk0', hs1],
        by simp [tapResult, tapStatics, seedUpdate, ihdp, hp1, hp2]⟩

/-- The shake-detected profile under continuous activity, stated against the
times of the polling schedule: tick k runs at t0 + 50 * k, the first
acceleration change (activity start) is at tick 1, and the flag is set
exactly from the first tick whose elapsed time since activity start reaches
CONFIG_MPU6050_SHAKE_MIN_DURATION_MS. -/
theorem C2_shake_confirmed_exactly_at_min_duration (s : ℕ → AccelSample) (t0 : ℕ)
    (hact : ∀ k, 1 ≤ k → CONFIG_MPU6050_SHAKE_THRESHOLD ^ 2 < deltaSq s k) (k : ℕ) :
    (motionRun s t0 k).shake_detected =
      decide (t0 + CONFIG_MPU6050_POLL_INTERVAL_MS + CONFIG_MPU6050_SHAKE_MIN_DURATION_MS ≤
        t0 + CONFIG_MPU6050_POLL_INTERVAL_MS * k) := by
  have h := (C2_state s t0 hact k).2.2.2.2.2.1
  rw [h]
  apply decide_eq_decide.mpr
  simp only [CONFIG_MPU6050_POLL_INTERVAL_MS, CONFIG_MPU6050_SHAKE_MIN_DURATION_MS]
  omega

theorem c2WitnessStream_active :
    ∀ k, 1 ≤ k → CONFIG_MPU6050_SHAKE_THRESHOLD ^ 2 < deltaSq c2WitnessStream k := by
  intro k hk
  rcases Nat.mod_two_eq_zero_or_one k with h | h
  · have h1 : (k - 1) % 2 = 1 := by omega
    simp [deltaSq, c2WitnessStream, h, h1, CONFIG_MPU6050_SHAKE_THRESHOLD]
    rw [abs_of_nonneg (by norm_num : (0:ℚ) ≤ 0.18)]
    norm_num
  · have h1 : (k - 1) % 2 = 0 := by omega
    simp [deltaSq, c2WitnessStream, h, h1, CONFIG_MPU6050_SHAKE_THRESHOLD]
    rw [abs_of_nonneg (by norm_num : (0:ℚ) ≤ 0.18)]
    norm_num

/-- Witness for C2: the alternating stream satisfies the continuous-activity
hypothesis, and at tick 11 (the confirmation instant) the theorem applies. -/
theorem C2_shake_confirmed_exactly_at_min_duration_witness :
    (∀ k, 1 ≤ k → CONFIG_MPU6050_SHAKE_THRESHOLD ^ 2 < deltaSq c2WitnessStream k) ∧
    (motionRun c2WitnessStream 0 11).shake_detected =
      decide (0 + CONFIG_MPU6050_POLL_INTERVAL_MS + CONFIG_MPU6050_SHAKE_MIN_DURATION_MS ≤
        0 + CONFIG_MPU6050_POLL_INTERVAL_MS * 11) :=
  ⟨c2WitnessStream_active,
    C2_shake_confirmed_exactly_at_min_duration c2WitnessStream 0 c2WitnessStream_active 11⟩

/-! ## Connectivity manager: C6, C7, C8 -/

/-- C6: in the canonical connect-then-fail trace, after N consecutive link
failures (N up to the retry limit) the adaptive delay equals
min(INITIAL * 1.5^N, MAX_RETRY_DELAY) — the integer update (d*3)/2 is exact
for the configured constants until the cap takes over — and a successful
connection (got-IP event) resets retry_count to 0 and the delay to the
initial value from any state. -/
theorem C6_retry_backoff_formula (N : ℕ) (hN : N ≤ CONFIG_WIFI_MAXIMUM_RETRY)
    (st : WifiState) (r : Option ℤ) :
    ((wifiRun WifiState.afterInit (failTrace N)).retry_delay_ms : ℚ) =
      min ((CONFIG_WIFI_INITIAL_RETRY_MS : ℚ) * (3 / 2) ^ N)
        (CONFIG_WIFI_MAX_RETRY_MS : ℚ) ∧
    (wifiStep st (WifiEvent.gotIp r)).retry_count = 0 ∧
    (wifiStep st (WifiEvent.gotIp r)).retry_delay_ms = CONFIG_WIFI_INITIAL_RETRY_MS := by
  refine ⟨?_, ?_, ?_⟩
  · have h5 : CONFIG_WIFI_MAXIMUM_RETRY = 5 := rfl
    rw [h5] at hN
    interval_cases N
    · rw [show (wifiRun WifiState.afterInit (failTrace 0)).retry_delay_ms = 2000 from by
        decide]
      norm_num [min_def, CONFIG_WIFI_INITIAL_RETRY_MS, CONFIG_WIFI_MAX_RETRY_MS]
    · rw [show (wifiRun WifiState.afterInit (failTrace 1)).retry_delay_ms = 3000 from by
        decide]
      norm_num [min_def, CONFIG_WIFI_INITIAL_RETRY_MS, CONFIG_WIFI_MAX_RETRY_MS]
    · rw [show (wifiRun WifiState.afterInit (failTrace 2)).retry_delay_ms = 4500 from by
        decide]
      norm_num [min_def, CONFIG_WIFI_INITIAL_RETRY_MS, CONFIG_WIFI_MAX_RETRY_MS]
    · rw [show (wifiRun WifiState.afterInit (failTrace 3)).retry_delay_ms = 6750 from by
        decide]
      norm_num [min_def, CONFIG_WIFI_INITIAL_RETRY_MS, CONFIG_WIFI_MAX_RETRY_MS]
    · rw [show (wifiRun WifiState.afterInit (failTrace 4)).retry_delay_ms = 10000 from by
        decide]
      norm_num [min_def, CONFIG_WIFI_INITIAL_RETRY_MS, CONFIG_WIFI_MAX_RETRY_MS]
    · rw [show (wifiRun WifiState.afterInit (failTrace 5)).retry_delay_ms = 10000 from by
        decide]
      norm_num [min_def, CONFIG_WIFI_INITIAL_RETRY_MS, CONFIG_WIFI_MAX_RETRY_MS]
  · cases r <;> rfl
  · cases r <;> rfl

/-- Witness for C6 at N = 4 (where the cap first takes effect). -/
theorem C6_retry_backoff_formula_witness :
    (4 ≤ CONFIG_WIFI_MAXIMUM_RETRY) ∧
    (((wifiRun WifiState.afterInit (failTrace 4)).retry_delay_ms : ℚ) =
      min ((CONFIG_WIFI_INITIAL_RETRY_MS : ℚ) * (3 / 2) ^ 4)
        (CONFIG_WIFI_MAX_RETRY_MS : ℚ) ∧
    (wifiStep WifiState.afterInit (WifiEvent.gotIp Option.none)).retry_count = 0 ∧
    (wifiStep WifiState.afterInit (WifiEvent.gotIp Option.none)).retry_delay_ms =
      CONFIG_WIFI_INITIAL_RETRY_MS) :=
  ⟨by decide, C6_retry_backoff_formula 4 (by decide) WifiState.afterInit Option.none⟩

/-- C7: five consecutive failures drive the manager into Failed with the
retry counter at the limit; in any such state a task iteration or a further
disconnected event leaves the status Failed and performs no further
esp_wifi_connect attempt; reconnect() (on an initialized module) resets the
retry counter and delay and publishes CONNECTING. -/
theorem C7_failed_terminal_until_reconnect (st : WifiState)
    (hf : st.status = WifiStatus.failed)
    (hr : CONFIG_WIFI_MAXIMUM_RETRY ≤ st.retry_num)
    (hi : st.initialized = true) (res : ConnectResult) (r : Option ℤ) :
    (wifiRun WifiState.afterInit (failTrace 5)).status = WifiStatus.failed ∧
    CONFIG_WIFI_MAXIMUM_RETRY ≤ (wifiRun WifiState.afterInit (failTrace 5)).retry_num ∧
    (wifiStep st (WifiEvent.taskTick res r)).status = WifiStatus.failed ∧
    (wifiStep st (WifiEvent.taskTick res r)).attempts = st.attempts ∧
    (wifiStep st WifiEvent.staDisconnected).status = WifiStatus.failed ∧
    (wifiStep st WifiEvent.staDisconnected).attempts = st.attempts ∧
    (wifi_module_reconnect st).retry_num = 0 ∧
    (wifi_module_reconnect st).retry_count = 0 ∧
    (wifi_module_reconnect st).retry_delay_ms = CONFIG_WIFI_INITIAL_RETRY_MS ∧
    (wifi_module_reconnect st).status = WifiStatus.connecting := by
  have hnl : ¬(st.retry_num < CONFIG_WIFI_MAXIMUM_RETRY) := Nat.not_lt.mpr hr
  refine ⟨by decide, by decide, ?_, ?_, ?_, ?_, ?_, ?_, ?_, ?_⟩
  · simp only [wifiStep, wifi_task_iteration, hnl, if_false, hf]
    split_ifs <;> simp_all
  · simp only [wifiStep, wifi_task_iteration, hnl, if_false, hf]
    split_ifs <;> simp_all
  · simp [wifiStep, wifi_event_sta_disconnected, hnl]
  · simp [wifiStep, wifi_event_sta_disconnected, hnl]
  · simp [wifi_module_reconnect, hi]
  · simp [wifi_module_reconnect, hi]
  · simp [wifi_module_reconnect, hi]
  · simp [wifi_module_reconnect, hi]

/-- Witness for C7 at the concrete state reached by five failures. -/
theorem C7_failed_terminal_until_reconnect_witness :
    ((wifiRun WifiState.afterInit (failTrace 5)).status = WifiStatus.failed) ∧
    (CONFIG_WIFI_MAXIMUM_RETRY ≤ (wifiRun WifiState.afterInit (failTrace 5)).retry_num) ∧
    ((wifiRun WifiState.afterInit (failTrace 5)).initialized = true) ∧
    ((wifiStep (wifiRun WifiState.afterInit (failTrace 5))
        (WifiEvent.taskTick ConnectResult.connOk Option.none)).status =
      WifiStatus.failed ∧
     (wifiStep (wifiRun WifiState.afterInit (failTrace 5))
        (WifiEvent.taskTick ConnectResult.connOk Option.none)).attempts =
      (wifiRun WifiState.afterInit (failTrace 5)).attempts) := by
  have h := C7_failed_terminal_until_reconnect (wifiRun WifiState.afterInit (failTrace 5))
    (by decide) (by decide) (by decide) ConnectResult.connOk Option.none
  exact ⟨by decide, by decide, by decide, h.2.2.1, h.2.2.2.1⟩

/-- C8 counterexample: after two failed attempts retry_count is 2; a plain
disconnect() — not a successful connection — takes it back to 0, refuting
the claim that only a successful connect resets the counter. -/
theorem C8_counterexample_disconnect_resets :
    (wifiRun WifiState.afterInit (failTrace 2)).retry_count = 2 ∧
    (wifi_module_disconnect true
      (wifiRun WifiState.afterInit (failTrace 2))).retry_count = 0 := by
  decide

/-- C8 (amended): a nonzero retry_count survives every spontaneous event
(start, link failure, task iteration); it is reset to zero by a successful
connect (got-IP), by reconnect(), by a successful disconnect(), and by
connect() whenever the module is not already connected — when it is,
connect() returns early and leaves the counter untouched. -/
theorem C8_retry_count_reset_sources (st : WifiState) (h : st.retry_count ≠ 0)
    (hi : st.initialized = true) (res : ConnectResult) (r : Option ℤ) (ok : Bool) :
    (wifiStep st WifiEvent.staStart).retry_count ≠ 0 ∧
    (wifiStep st WifiEvent.staDisconnected).retry_count ≠ 0 ∧
    (wifiStep st (WifiEvent.taskTick res r)).retry_count ≠ 0 ∧
    (wifiStep st (WifiEvent.gotIp r)).retry_count = 0 ∧
    (wifi_module_reconnect st).retry_count = 0 ∧
    (wifi_module_disconnect true st).retry_count = 0 ∧
    (st.status ≠ WifiStatus.connected →
      (wifi_module_connect ok st).retry_count = 0) ∧
    (st.status = WifiStatus.connected →
      (wifi_module_connect ok st).retry_count = st.retry_count) := by
  refine ⟨?_, ?_, ?_, ?_, ?_, ?_, ?_, ?_⟩
  · simpa [wifiStep, wifi_event_sta_start] using h
  · simp only [wifiStep, wifi_event_sta_disconnected]
    split_ifs <;> simpa using h
  · cases res <;> cases r <;> simp only [wifiStep, wifi_task_iteration] <;>
      split_ifs <;> simp_all
  · cases r <;> rfl
  · simp [wifi_module_reconnect, hi]
  · simp [wifi_module_disconnect, hi]
  · intro hc
    simp [wifi_module_connect, hi, hc]
    split_ifs <;> rfl
  · intro hc
    simp [wifi_module_connect, hi, hc]

/-- Witness for C8 (amended) at the two-failure state (status CONNECTING,
retry_count 2): reconnect() and a fresh connect() both clear the counter. -/
theorem C8_retry_count_reset_sources_witness :
    ((wifiRun WifiState.afterInit (failTrace 2)).retry_count ≠ 0) ∧
    ((wifiRun WifiState.afterInit (failTrace 2)).initialized = true) ∧
    ((wifiRun WifiState.afterInit (failTrace 2)).status ≠ WifiStatus.connected) ∧
    (wifi_module_reconnect (wifiRun WifiState.afterInit (failTrace 2))).retry_count = 0 ∧
    (wifi_module_connect true (wifiRun WifiState.afterInit (failTrace 2))).retry_count = 0 := by
  have h := C8_retry_count_reset_sources (wifiRun WifiState.afterInit (failTrace 2))
    (by decide) (by decide) ConnectResult.connOk Option.none true
  exact ⟨by decide, by decide, by decide, h.2.2.2.2.1, h.2.2.2.2.2.2.1 (by decide)⟩

/-! ## Status strings and accessors: C9, C10 -/

/-- C9 counterexample: wifi_get_status_string succeeds on an uninitialized
module and on an undersized (3-byte) buffer, where the claim demands an
error in both situations. -/
theorem C9_counterexample_wifi_status_string :
    (wifi_get_status_string false 64 { WifiState.afterInit with initialized := false }).1 = true ∧
    (wifi_get_status_string false 3 WifiState.afterInit).1 = true := by
  decide

/-- C9 (amended): the PIR and MPU6050 status-string calls fail exactly when
the module is uninitialized, the buffer is null, or the capacity is below 32
bytes; the Wi-Fi one fails exactly on a null buffer or zero capacity and
never checks initialization. -/
theorem C9_status_string_error_conditions (pi bn : Bool) (bs : ℕ) (pst : PirStatus)
    (mi mn : Bool) (ms : ℕ) (mh : Bool) (mst : MotionState)
    (wn : Bool) (ws : ℕ) (wst : WifiState) :
    ((pir_get_status_string pi bn bs pst).1 = false ↔
      (pi = false ∨ bn = true ∨ bs < 32)) ∧
    ((mpu6050_get_status_string mi mn ms mh mst).1 = false ↔
      (mi = false ∨ mn = true ∨ ms < 32)) ∧
    ((wifi_get_status_string wn ws wst).1 = false ↔ (wn = true ∨ ws = 0)) := by
  refine ⟨?_, ?_, ?_⟩
  · simp only [pir_get_status_string]
    split_ifs <;> simp_all
  · simp only [mpu6050_get_status_string]
    split_ifs <;> simp_all
  · rcases hs : wst.status <;> simp only [wifi_get_status_string, hs] <;>
      split_ifs <;> simp_all

/-- C10: before a module's init() has succeeded, the query accessors return
inert defaults whatever the internal state holds. -/
theorem C10_uninitialized_accessors_inert (mst : MotionState) (pst : PirStatus) :
    mpu6050_is_shake_detected false mst = false ∧
    mpu6050_is_tap_detected false mst = false ∧
    pir_is_motion_detected false pst = false ∧
    pir_get_time_since_last_motion false pst = 0 :=
  ⟨rfl, rfl, rfl, rfl⟩


/-! ## Gesture detector flags: C1 -/

set_option maxRecDepth 10000 in
set_option maxHeartbeats 2000000 in
/-- C1: the gesture flags are not mutually exclusive.  On c1Stream
(continuous x-axis shake activity from tick 1 plus a z-axis transient at
tick 11, task started at 1000 ms) tick 11 confirms the shake and clears
tap_detected ("shake overrides tap"), but the same tick's accepted tap event
is processed afterwards by block 3, so the tick ends with shake_detected and
tap_detected both true — the published snapshot violates the claimed
invariant, against the code's own stated intent. -/
theorem C1_shake_and_tap_flags_both_true :
    (motionRun c1Stream 1000 11).shake_detected = true ∧
    (motionRun c1Stream 1000 11).tap_detected = true := by
  norm_num [motionRun, motionStep, motion_tick, detect_shake_activity, detect_tap,
    shake_state_update, shake_display_timeout, tap_event_update, tap_display_timeout,
    c1Stream, MotionState.init, abs_eq_max_neg, max_def, CONFIG_MPU6050_SHAKE_THRESHOLD,
    CONFIG_MPU6050_TAP_Z_THRESHOLD, CONFIG_MPU6050_TAP_DEBOUNCE_MS,
    CONFIG_MPU6050_TAP_DISPLAY_MS, CONFIG_MPU6050_SHAKE_MIN_DURATION_MS,
    CONFIG_MPU6050_SHAKE_DISPLAY_MS, CONFIG_MPU6050_SHAKE_TIMEOUT_MS,
    CONFIG_MPU6050_POLL_INTERVAL_MS]

/-! ## Gesture detector: C3 (single isolated tap) -/

theorem deltaSq_succ (s : ℕ → AccelSample) (k : ℕ) :
    deltaSq s (k + 1) =
      ((s (k + 1)).acce_x - (s k).acce_x) ^ 2 + ((s (k + 1)).acce_y - (s k).acce_y) ^ 2 +
        ((s (k + 1)).acce_z - (s k).acce_z) ^ 2 := by
  simp [deltaSq]

/-- A per-tick change below the shake threshold cannot cross the (larger)
tap threshold on the z axis. -/
theorem tap_delta_small (x y z : ℚ)
    (h : x ^ 2 + y ^ 2 + z ^ 2 ≤ CONFIG_MPU6050_SHAKE_THRESHOLD ^ 2) :
    ¬(CONFIG_MPU6050_TAP_Z_THRESHOLD < |z|) := by
  intro hz
  simp only [CONFIG_MPU6050_SHAKE_THRESHOLD, CONFIG_MPU6050_TAP_Z_THRESHOLD] at h hz
  nlinarith [sq_abs z, abs_nonneg z, sq_nonneg x, sq_nonneg y]

/-- A z-axis change past the tap threshold always counts as shake activity. -/
theorem tap_delta_activity (x y z : ℚ)
    (h : CONFIG_MPU6050_TAP_Z_THRESHOLD < |z|) :
    CONFIG_MPU6050_SHAKE_THRESHOLD ^ 2 < x ^ 2 + y ^ 2 + z ^ 2 := by
  simp only [CONFIG_MPU6050_SHAKE_THRESHOLD, CONFIG_MPU6050_TAP_Z_THRESHOLD] at h ⊢
  nlinarith [sq_abs z, abs_nonneg z, sq_nonneg x, sq_nonneg y]

/-- The run on a stream whose only transient (and only shake activity) is at
tick j follows the explicit C3state profile. -/
theorem C3_state_eq (s : ℕ → AccelSample) (t0 j : ℕ) (hj : 1 ≤ j)
    (hboot : CONFIG_MPU6050_TAP_DEBOUNCE_MS < t0 + CONFIG_MPU6050_POLL_INTERVAL_MS * j)
    (htrans : CONFIG_MPU6050_TAP_Z_THRESHOLD < |(s j).acce_z - (s (j - 1)).acce_z|)
    (hquiet : ∀ k, 1 ≤ k → k ≠ j → deltaSq s k ≤ CONFIG_MPU6050_SHAKE_THRESHOLD ^ 2) :
    ∀ k, motionRun s t0 k = C3state s t0 j k := by
  have hboot' : 180 < t0 + 50 * j := by
    simpa [CONFIG_MPU6050_TAP_DEBOUNCE_MS, CONFIG_MPU6050_POLL_INTERVAL_MS] using hboot
  intro k
  induction k with
  | zero =>
    have h0 : ¬(j ≤ 0) := by omega
    simp [motionRun, motionStep, motion_tick, detect_shake_activity, detect_tap,
      shake_state_update, shake_display_timeout, tap_event_update, tap_display_timeout,
      MotionState.init, C3state, h0, CONFIG_MPU6050_POLL_INTERVAL_MS]
  | succ k ih =>
    have hrun : motionRun s t0 (k + 1) =
        motionStep (C3state s t0 j k) (s (k + 1)) (t0 + 50 * (k + 1)) := by
      rw [show motionRun s t0 (k + 1) = motionStep (motionRun s t0 k) (s (k + 1))
          (t0 + CONFIG_MPU6050_POLL_INTERVAL_MS * (k + 1)) from by simp [motionRun], ih]
      rfl
    have hfr : (C3state s t0 j k).first_run = false := rfl
    rw [hrun]
    simp only [motionStep, motion_tick, shake_activity_eval' (C3state s t0 j k) hfr]
    rcases Nat.lt_trichotomy (k + 1) j with hlt | heq | hgt
    · -- before the transient: no activity, no tap
      have hne : k + 1 ≠ j := by omega
      have hq := hquiet (k + 1) (by omega) hne
      rw [deltaSq_succ] at hq
      have hact : decide (|(s (k + 1)).acce_x - (C3state s t0 j k).prev_ax| ^ 2 +
          |(s (k + 1)).acce_y - (C3state s t0 j k).prev_ay| ^ 2 +
          |(s (k + 1)).acce_z - (C3state s t0 j k).prev_az| ^ 2 >
          CONFIG_MPU6050_SHAKE_THRESHOLD ^ 2) = false := by
        rw [decide_eq_false_iff_not, gt_iff_lt, not_lt]
        simpa [C3state, sq_abs] using hq
      have hn1 : ¬(j ≤ k) := by omega
      have hn2 : ¬(j ≤ k + 1) := by omega
      rw [hact]
      rw [detect_tap_small _ rfl rfl _ _
        (by simpa [C3state, seedUpdate] using tap_delta_small _ _ _ hq)]
      rw [shake_state_update_idle _ _ (Or.inl (by simp [C3state, seedUpdate, hn1]))]
      rw [shake_display_timeout_id _ _ (Or.inl rfl)]
      rw [tap_event_update_false]
      rw [tap_display_timeout_id _ _ (Or.inl (by simp [C3state, seedUpdate, hn1]))]
      simp [C3state, seedUpdate, hn1, hn2]
      try omega
      try (split_ifs <;> omega)
    · -- the transient tick: activity and an accepted tap
      subst heq
      simp only [Nat.add_sub_cancel] at htrans
      have hact : decide (|(s (k + 1)).acce_x - (C3state s t0 (k + 1) k).prev_ax| ^ 2 +
          |(s (k + 1)).acce_y - (C3state s t0 (k + 1) k).prev_ay| ^ 2 +
          |(s (k + 1)).acce_z - (C3state s t0 (k + 1) k).prev_az| ^ 2 >
          CONFIG_MPU6050_SHAKE_THRESHOLD ^ 2) = true := by
        rw [decide_eq_true_eq, gt_iff_lt]
        have := tap_delta_activity ((s (k + 1)).acce_x - (s k).acce_x)
          ((s (k + 1)).acce_y - (s k).acce_y) ((s (k + 1)).acce_z - (s k).acce_z) htrans
        simpa [C3state, sq_abs] using this
      rw [hact]
      rw [detect_tap_accept _ rfl rfl _ _
        (by simpa [C3state, seedUpdate] using htrans)
        (by simp [C3state, seedUpdate, CONFIG_MPU6050_TAP_DEBOUNCE_MS]; omega)]
      rw [shake_state_update_start _ _ (by simp [C3state, seedUpdate, tapStatics]; try omega)]
      rw [shake_display_timeout_id _ _ (Or.inl rfl)]
      rw [tap_event_update_true]
      rw [tap_display_timeout_id _ _ (Or.inr (Or.inr
        (by simp [CONFIG_MPU6050_TAP_DISPLAY_MS])))]
      have hk1 : ¬(k + 1 ≤ k) := by omega
      simp [C3state, seedUpdate, hk1]
      try omega
      try (split_ifs <;> omega)
    · -- after the transient: no activity, no tap; shake timeout at j + 11,
      -- tap display timeout at j + 16
      have hne : k + 1 ≠ j := by omega
      have hq := hquiet (k + 1) (by omega) hne
      rw [deltaSq_succ] at hq
      have hact : decide (|(s (k + 1)).acce_x - (C3state s t0 j k).prev_ax| ^ 2 +
          |(s (k + 1)).acce_y - (C3state s t0 j k).prev_ay| ^ 2 +
          |(s (k + 1)).acce_z - (C3state s t0 j k).prev_az| ^ 2 >
          CONFIG_MPU6050_SHAKE_THRESHOLD ^ 2) = false := by
        rw [decide_eq_false_iff_not, gt_iff_lt, not_lt]
        simpa [C3state, sq_abs] using hq
      rw [hact]
      rw [detect_tap_small _ rfl rfl _ _
        (by simpa [C3state, seedUpdate] using tap_delta_small _ _ _ hq)]
      have hjk : j ≤ k := by omega
      have hjk1 : j ≤ k + 1 := by omega
      rcases Nat.lt_or_ge (k + 1) (j + 11) with hto | hto
      · -- j < k+1 ≤ j+10: shake timer still pending, no timeout yet
        have e1 : k ≤ j + 10 := by omega
        have e2 : k + 1 ≤ j + 10 := by omega
        have e3 : k < j + 16 := by omega
        have e4 : k + 1 < j + 16 := by omega
        rw [shake_state_update_idle _ _ (Or.inr (by
          simp [C3state, seedUpdate, tapStatics, hjk, e1, CONFIG_MPU6050_SHAKE_TIMEOUT_MS]
          omega))]
        rw [shake_display_timeout_id _ _ (Or.inl rfl)]
        rw [tap_event_update_false]
        rw [tap_display_timeout_id _ _ (Or.inr (Or.inr (by
          simp [C3state, seedUpdate, tapStatics, hjk, hjk1, e3,
            CONFIG_MPU6050_TAP_DISPLAY_MS]
          omega)))]
        simp [C3state, seedUpdate, tapStatics, hjk, hjk1, e1, e2, e3, e4]
        try omega
        try (split_ifs <;> omega)
      · rcases Nat.eq_or_lt_of_le hto with hto11 | hto11
        · -- k+1 = j+11: the shake timeout resets the (never confirmed) timer
          have e1 : k ≤ j + 10 := by omega
          have e2 : ¬(k + 1 ≤ j + 10) := by omega
          have e3 : k < j + 16 := by omega
          have e4 : k + 1 < j + 16 := by omega
          rw [shake_state_update_timeout_clear _ _
            (by simp [C3state, seedUpdate, tapStatics, hjk, e1]; omega)
            (by simp [C3state, seedUpdate, tapStatics, hjk, e1,
                  CONFIG_MPU6050_SHAKE_TIMEOUT_MS]; omega)
            (Or.inl (by simp [C3state, seedUpdate, tapStatics]))]
          rw [shake_display_timeout_id _ _ (Or.inl rfl)]
          rw [tap_event_update_false]
          rw [tap_display_timeout_id _ _ (Or.inr (Or.inr (by
            simp [C3state, seedUpdate, tapStatics, hjk, hjk1, e3,
              CONFIG_MPU6050_TAP_DISPLAY_MS]
            omega)))]
          simp [C3state, seedUpdate, tapStatics, hjk, hjk1, e1, e2, e3, e4]
          try omega
          try (split_ifs <;> omega)
        · -- k+1 > j+11: timer already cleared; only the tap display remains
          have hst0 : ¬(k ≤ j + 10) := by omega
          rw [shake_state_update_idle _ _ (Or.inl
            (by simp [C3state, seedUpdate, tapStatics, hst0]))]
          rw [shake_display_timeout_id _ _ (Or.inl rfl)]
          rw [tap_event_update_false]
          rcases Nat.lt_or_ge (k + 1) (j + 16) with hdisp | hdisp
          · -- tap display still running
            have e3 : k < j + 16 := by omega
            have e4 : k + 1 < j + 16 := by omega
            rw [tap_display_timeout_id _ _ (Or.inr (Or.inr (by
              simp [C3state, seedUpdate, tapStatics, hjk, hjk1, e3,
                CONFIG_MPU6050_TAP_DISPLAY_MS]
              omega)))]
            simp [C3state, seedUpdate, tapStatics, hjk, hjk1, hst0, e3, e4]
            try omega
            try (split_ifs <;> omega)
          · rcases Nat.eq_or_lt_of_le hdisp with h16 | h16
            · -- k+1 = j+16: the tap display expires exactly now
              have e2 : ¬(k ≤ j + 10) := by omega
              have e3 : k < j + 16 := by omega
              have e4 : ¬(k + 1 < j + 16) := by omega
              rw [tap_display_timeout_clear _ _
                (by simp [C3state, seedUpdate, tapStatics, hjk, e3])
                (by simp [C3state, seedUpdate, tapStatics, hjk, e3]; omega)
                (by simp [C3state, seedUpdate, tapStatics, hjk, e3,
                      CONFIG_MPU6050_TAP_DISPLAY_MS]; omega)]
              simp [C3state, seedUpdate, tapStatics, hjk, hjk1, e2, e3, e4]
              try omega
              try (split_ifs <;> omega)
            · -- k+1 > j+16: everything cleared
              have e2 : ¬(k ≤ j + 10) := by omega
              have e3 : ¬(k < j + 16) := by omega
              have e4 : ¬(k + 1 < j + 16) := by omega
              rw [tap_display_timeout_id _ _ (Or.inl
                (by simp [C3state, seedUpdate, tapStatics, e3]))]
              simp [C3state, seedUpdate, tapStatics, hjk, hjk1, hst0, e2, e3, e4]
              try omega
              try (split_ifs <;> omega)

/-- C3 (amended): for a stream whose single isolated z-axis transient is at
tick j — amended with the condition that the transient occurs more than
TAP_DEBOUNCE_MS after boot, since the debounce window is measured from
last_tap_time = 0 at startup — exactly one tap event is accepted (at tick
j), and the published tap flag holds exactly for the ticks within
TAP_DISPLAY_MS of the transient. -/
theorem C3_single_isolated_tap (s : ℕ → AccelSample) (t0 j : ℕ) (hj : 1 ≤ j)
    (hboot : CONFIG_MPU6050_TAP_DEBOUNCE_MS < t0 + CONFIG_MPU6050_POLL_INTERVAL_MS * j)
    (htrans : CONFIG_MPU6050_TAP_Z_THRESHOLD < |(s j).acce_z - (s (j - 1)).acce_z|)
    (hquiet : ∀ k, 1 ≤ k → k ≠ j → deltaSq s k ≤ CONFIG_MPU6050_SHAKE_THRESHOLD ^ 2)
    (k : ℕ) :
    tapEventAt s t0 k = decide (k = j) ∧
    (motionRun s t0 k).tap_detected =
      decide (j ≤ k ∧ t0 + CONFIG_MPU6050_POLL_INTERVAL_MS * k <
        t0 + CONFIG_MPU6050_POLL_INTERVAL_MS * j + CONFIG_MPU6050_TAP_DISPLAY_MS) := by
  have hstate := C3_state_eq s t0 j hj hboot htrans hquiet
  constructor
  · cases k with
    | zero =>
      have h0 : ¬(0 = j) := by omega
      simp [tapEventAt, motion_tick, detect_shake_activity, detect_tap, MotionState.init,
        h0]
    | succ k =>
      have hb : 180 < t0 + 50 * j := by
        simpa [CONFIG_MPU6050_TAP_DEBOUNCE_MS, CONFIG_MPU6050_POLL_INTERVAL_MS] using hboot
      rw [show tapEventAt s t0 (k + 1) = (motion_tick (motionRun s t0 k) (s (k + 1))
        (t0 + CONFIG_MPU6050_POLL_INTERVAL_MS * (k + 1))).2.2 from rfl, hstate k]
      simp only [motion_tick, shake_activity_eval' (C3state s t0 j k) rfl]
      by_cases hkj : k + 1 = j
      · subst hkj
        simp only [Nat.add_sub_cancel] at htrans hb
        rw [detect_tap_accept _ rfl rfl _ _ (by simpa [C3state, seedUpdate] using htrans)
          (by have hx : ¬(k + 1 ≤ k) := by omega
              simp [C3state, seedUpdate, hx, CONFIG_MPU6050_TAP_DEBOUNCE_MS,
                CONFIG_MPU6050_POLL_INTERVAL_MS]
              omega)]
        simp
      · have hq := hquiet (k + 1) (by omega) hkj
        rw [deltaSq_succ] at hq
        rw [detect_tap_small _ rfl rfl _ _
          (by simpa [C3state, seedUpdate] using tap_delta_small _ _ _ hq)]
        simp [hkj]
  · rw [hstate k]
    simp only [C3state]
    apply decide_eq_decide.mpr
    simp only [CONFIG_MPU6050_POLL_INTERVAL_MS, CONFIG_MPU6050_TAP_DISPLAY_MS]
    omega

set_option maxRecDepth 10000 in
set_option maxHeartbeats 4000000 in
/-- C3 counterexample: with the task started at time 0 and the single
transient at tick 1 (50 ms after boot, within the TAP_DEBOUNCE_MS window
measured from last_tap_time = 0), no tap is ever accepted: the claim's
"exactly one tap event is accepted" fails as stated. -/
theorem C3_counterexample_cold_start_debounce :
    tapEventAt c3ColdStream 0 1 = false ∧
    (motionRun c3ColdStream 0 8).tap_detected = false ∧
    (motionRun c3ColdStream 0 17).tap_detected = false ∧
    (motionRun c3ColdStream 0 17).last_tap_time = 0 := by
  norm_num [motionRun, motionStep, motion_tick, tapEventAt, detect_shake_activity,
    detect_tap, shake_state_update, shake_display_timeout, tap_event_update,
    tap_display_timeout, c3ColdStream, MotionState.init, abs_eq_max_neg, max_def,
    CONFIG_MPU6050_SHAKE_THRESHOLD, CONFIG_MPU6050_TAP_Z_THRESHOLD,
    CONFIG_MPU6050_TAP_DEBOUNCE_MS, CONFIG_MPU6050_TAP_DISPLAY_MS,
    CONFIG_MPU6050_SHAKE_MIN_DURATION_MS, CONFIG_MPU6050_SHAKE_DISPLAY_MS,
    CONFIG_MPU6050_SHAKE_TIMEOUT_MS, CONFIG_MPU6050_POLL_INTERVAL_MS]

theorem c3WitnessStream_trans :
    CONFIG_MPU6050_TAP_Z_THRESHOLD <
      |(c3WitnessStream 5).acce_z - (c3WitnessStream (5 - 1)).acce_z| := by
  norm_num [c3WitnessStream, CONFIG_MPU6050_TAP_Z_THRESHOLD]

theorem c3WitnessStream_quiet : ∀ k, 1 ≤ k → k ≠ 5 →
    deltaSq c3WitnessStream k ≤ CONFIG_MPU6050_SHAKE_THRESHOLD ^ 2 := by
  intro k h1 h5
  rcases Nat.lt_or_ge k 5 with h | h
  · have hb : k - 1 < 5 := by omega
    simp [deltaSq, c3WitnessStream, h, hb, CONFIG_MPU6050_SHAKE_THRESHOLD]
    norm_num
  · have ha : ¬(k < 5) := by omega
    have hb : ¬(k - 1 < 5) := by omega
    simp [deltaSq, c3WitnessStream, ha, hb, CONFIG_MPU6050_SHAKE_THRESHOLD]
    norm_num

/-- Witness for C3 at the stream with its transient at tick 5, task started
at 200 ms, evaluated at the transient tick itself. -/
theorem C3_single_isolated_tap_witness :
    (1 ≤ 5) ∧
    (CONFIG_MPU6050_TAP_DEBOUNCE_MS < 200 + CONFIG_MPU6050_POLL_INTERVAL_MS * 5) ∧
    (CONFIG_MPU6050_TAP_Z_THRESHOLD <
      |(c3WitnessStream 5).acce_z - (c3WitnessStream (5 - 1)).acce_z|) ∧
    (∀ k, 1 ≤ k → k ≠ 5 →
      deltaSq c3WitnessStream k ≤ CONFIG_MPU6050_SHAKE_THRESHOLD ^ 2) ∧
    (tapEventAt c3WitnessStream 200 5 = decide (5 = 5) ∧
     (motionRun c3WitnessStream 200 5).tap_detected =
       decide (5 ≤ 5 ∧ 200 + CONFIG_MPU6050_POLL_INTERVAL_MS * 5 <
         200 + CONFIG_MPU6050_POLL_INTERVAL_MS * 5 + CONFIG_MPU6050_TAP_DISPLAY_MS)) :=
  ⟨by omega, by decide, c3WitnessStream_trans, c3WitnessStream_quiet,
    C3_single_isolated_tap c3WitnessStream 200 5 (by omega) (by decide)
      c3WitnessStream_trans c3WitnessStream_quiet 5⟩


/-! ## PIR presence detector: C5 -/

/-- The seconds clock of the PIR polling schedule is monotone in the tick. -/
theorem pirTime_mono (t0 : ℕ) {j k : ℕ} (h : j ≤ k) : pirTime t0 j ≤ pirTime t0 k := by
  apply Nat.div_le_div_right
  have h2 : CONFIG_PIR_POLL_INTERVAL_MS * j ≤ CONFIG_PIR_POLL_INTERVAL_MS * k :=
    mul_le_mul_left' h CONFIG_PIR_POLL_INTERVAL_MS
  omega

/-- Reachable-state invariant of the PIR monitoring loop: the published
motion flag equals the last reading, the duration is zero while motion is
present (it was zeroed at the rising edge) or while no motion timestamp
exists, the stored timestamp never exceeds the current time, and during
absence with a recorded timestamp the duration is exactly now - last. -/
theorem pirRun_state (readings : ℕ → Bool) (t0 : ℕ) :
    ∀ k, (pirRun readings t0 k).motion_detected = readings k ∧
      ((pirRun readings t0 k).motion_detected = true →
        (pirRun readings t0 k).no_motion_duration = 0) ∧
      ((pirRun readings t0 k).last_motion_time = 0 →
        (pirRun readings t0 k).no_motion_duration = 0) ∧
      (pirRun readings t0 k).last_motion_time ≤ pirTime t0 k ∧
      (readings k = false → 0 < (pirRun readings t0 k).last_motion_time →
        (pirRun readings t0 k).no_motion_duration =
          pirTime t0 k - (pirRun readings t0 k).last_motion_time) := by
  intro k
  induction k with
  | zero =>
    cases h0 : readings 0 <;>
      simp [pirRun, pir_monitoring_step, PirStatus.init, h0]
  | succ k ih =>
    obtain ⟨ihm, ihz, ihlz, ihle, ihd⟩ := ih
    have hmono : pirTime t0 k ≤ pirTime t0 (k + 1) := pirTime_mono t0 (Nat.le_succ k)
    have hrun : pirRun readings t0 (k + 1) =
        pir_monitoring_step (pirRun readings t0 k) (readings (k + 1))
          (pirTime t0 (k + 1)) := by
      simp [pirRun]
    rw [hrun]
    cases h1 : readings (k + 1)
    · -- reading absent
      cases hr : readings k
      · have hmd : (pirRun readings t0 k).motion_detected = false := by rw [ihm, hr]
        rcases Nat.eq_zero_or_pos (pirRun readings t0 k).last_motion_time with hl | hl
        · simp [pir_monitoring_step, hmd, hl]
          exact ihlz hl
        · simp [pir_monitoring_step, hmd, hl, Nat.pos_iff_ne_zero.mp hl]
          omega
      · have hmd : (pirRun readings t0 k).motion_detected = true := by rw [ihm, hr]
        rcases Nat.eq_zero_or_pos (pirTime t0 (k + 1)) with ht | ht
        · simp [pir_monitoring_step, hmd, ht]
          exact ihz hmd
        · simp [pir_monitoring_step, hmd, ht, Nat.pos_iff_ne_zero.mp ht]
          try omega
    · -- reading present
      cases hr : readings k
      · have hmd : (pirRun readings t0 k).motion_detected = false := by rw [ihm, hr]
        simp [pir_monitoring_step, hmd, h1]
        try omega
      · have hmd : (pirRun readings t0 k).motion_detected = true := by rw [ihm, hr]
        simp [pir_monitoring_step, hmd, h1]
        exact ⟨ihz hmd, ihlz, ihle.trans hmono⟩

/-- C5: the published no-motion duration is zero after any tick whose
reading is motion-present, and never decreases from one tick to the next
while the reading stays absent (one tick of absence suffices: a present tick
leaves the duration at zero, which is a lower bound for everything). -/
theorem C5_no_motion_duration_monotone (readings : ℕ → Bool) (t0 k : ℕ) :
    (readings k = true → (pirRun readings t0 k).no_motion_duration = 0) ∧
    (readings (k + 1) = false →
      (pirRun readings t0 k).no_motion_duration ≤
        (pirRun readings t0 (k + 1)).no_motion_duration) := by
  obtain ⟨ihm, ihz, ihlz, ihle, ihd⟩ := pirRun_state readings t0 k
  constructor
  · intro h
    exact ihz (by rw [ihm, h])
  · intro h1
    have hrun : pirRun readings t0 (k + 1) =
        pir_monitoring_step (pirRun readings t0 k) (readings (k + 1))
          (pirTime t0 (k + 1)) := by
      simp [pirRun]
    have hmono : pirTime t0 k ≤ pirTime t0 (k + 1) := pirTime_mono t0 (Nat.le_succ k)
    cases hr : readings k
    · have hmd : (pirRun readings t0 k).motion_detected = false := by rw [ihm, hr]
      rcases Nat.eq_zero_or_pos (pirRun readings t0 k).last_motion_time with hl | hl
      · rw [hrun]
        simp [pir_monitoring_step, h1, hmd, hl]
        try omega
      · rw [hrun]
        simp [pir_monitoring_step, h1, hmd, hl, Nat.pos_iff_ne_zero.mp hl]
        rw [ihd hr hl]
        omega
    · have h0 : (pirRun readings t0 k).no_motion_duration = 0 := ihz (by rw [ihm, hr])
      rw [h0]
      omega

/-- Witness for C5 at the concrete readings "present only at tick 0". -/
theorem C5_no_motion_duration_monotone_witness :
    (c5Readings 0 = true) ∧ (c5Readings 1 = false) ∧
    (pirRun c5Readings 0 0).no_motion_duration = 0 ∧
    (pirRun c5Readings 0 0).no_motion_duration ≤
      (pirRun c5Readings 0 1).no_motion_duration :=
  ⟨by decide, by decide,
    (C5_no_motion_duration_monotone c5Readings 0 0).1 (by decide),
    (C5_no_motion_duration_monotone c5Readings 0 0).2 (by decide)⟩

end SmartAssistant

namespace SmartAssistant

/-- Reachable-state profile for a stream with continuous shake activity at
ticks 1..m (m ≥ 11, so the shake is confirmed at tick 11) and no activity
afterwards: the shake is confirmed at tick 11 (display timer t0 + 550), the
activity timeout resets the timer at tick m + 11, and the published flag is
held until tick max 27 (m + 11) — i.e. at least SHAKE_DISPLAY_MS = 800 ms
past the confirmation instant even though activity ceased at tick m. -/
theorem C4_state (s : ℕ → AccelSample) (t0 m : ℕ) (hm : 11 ≤ m)
    (hact : ∀ k, 1 ≤ k → k ≤ m → CONFIG_MPU6050_SHAKE_THRESHOLD ^ 2 < deltaSq s k)
    (hquiet : ∀ k, m < k → deltaSq s k ≤ CONFIG_MPU6050_SHAKE_THRESHOLD ^ 2) :
    ∀ k, (motionRun s t0 k).first_run = false ∧
      (motionRun s t0 k).prev_ax = (s k).acce_x ∧
      (motionRun s t0 k).prev_ay = (s k).acce_y ∧
      (motionRun s t0 k).prev_az = (s k).acce_z ∧
      (motionRun s t0 k).is_shaking = decide (11 ≤ k ∧ k ≤ m + 10) ∧
      (motionRun s t0 k).shake_detected = decide (11 ≤ k ∧ k < max 27 (m + 11)) ∧
      (motionRun s t0 k).shake_start_time =
        (if 1 ≤ k ∧ k ≤ m + 10 then t0 + 50 else 0) ∧
      (motionRun s t0 k).shake_display_start =
        (if 11 ≤ k ∧ k < max 27 (m + 11) then t0 + 550 else 0) ∧
      (motionRun s t0 k).last_shake_activity_time =
        (if 1 ≤ k then t0 + 50 * min k m else 0) := by
  intro k
  induction k with
  | zero =>
    simp [motionRun, motionStep, motion_tick, detect_shake_activity, detect_tap,
      shake_state_update, shake_display_timeout, tap_event_update, tap_display_timeout,
      MotionState.init, CONFIG_MPU6050_POLL_INTERVAL_MS]
  | succ k ih =>
    obtain ⟨ihf, ihx, ihy, ihz, ihsh, ihsd, ihst, ihdp, ihla⟩ := ih
    obtain ⟨z, fr, lt, td, lm, tds, hstep⟩ :=
      motionStep_decomp (motionRun s t0 k) (s (k + 1)) (t0 + 50 * (k + 1)) ihf
    have hrun : motionRun s t0 (k + 1) =
        motionStep (motionRun s t0 k) (s (k + 1)) (t0 + 50 * (k + 1)) := by
      simp [motionRun, CONFIG_MPU6050_POLL_INTERVAL_MS]
    by_cases hkm : k + 1 ≤ m
    · -- activity continues at tick k + 1
      have hdec : decide (|(s (k + 1)).acce_x - (motionRun s t0 k).prev_ax| ^ 2 +
          |(s (k + 1)).acce_y - (motionRun s t0 k).prev_ay| ^ 2 +
          |(s (k + 1)).acce_z - (motionRun s t0 k).prev_az| ^ 2 >
          CONFIG_MPU6050_SHAKE_THRESHOLD ^ 2) = true := by
        rw [decide_eq_true_eq, ihx, ihy, ihz]
        have h1 := hact (k + 1) (by omega) hkm
        simpa [deltaSq, sq_abs] using h1
      rw [hdec] at hstep
      rw [hrun, hstep]
      rcases Nat.eq_zero_or_pos k with hk0 | hk0
      · subst hk0
        rw [shake_state_update_start _ _ (by simp [tapStatics, seedUpdate, ihst])]
        rw [shake_display_timeout_id _ _ (Or.inl (by simp [tapStatics, seedUpdate, ihsd]))]
        refine ⟨by simp [tapResult, tapStatics, seedUpdate, ihf],
          by simp [tapResult, tapStatics, seedUpdate],
          by simp [tapResult, tapStatics, seedUpdate],
          by simp [tapResult, tapStatics, seedUpdate], ?_, ?_, ?_, ?_, ?_⟩
        all_goals simp [tapResult, tapStatics, seedUpdate, ihsh, ihsd, ihst, ihdp, ihla,
          decide_eq_decide]
        all_goals try omega
        all_goals try (split_ifs <;> omega)
        all_goals try (rw [Bool.eq_iff_iff]; simp only [Bool.and_eq_true, Bool.or_eq_true, decide_eq_true_eq]; omega)
      · rcases Nat.lt_or_ge k 10 with hk9 | hk10
        · have f1 : (1 ≤ k ∧ k ≤ m + 10) := by omega
          have f2 : ¬(11 ≤ k ∧ k ≤ m + 10) := by omega
          rw [shake_state_update_pending _ _
            (by simp [tapStatics, seedUpdate, ihst, f1])
            (by simp [tapStatics, seedUpdate, ihsh, f2])
            (by simp [tapStatics, seedUpdate, ihst, f1,
                  CONFIG_MPU6050_SHAKE_MIN_DURATION_MS]; try omega)]
          rw [shake_display_timeout_id _ _ (Or.inl
            (by simp [tapStatics, seedUpdate, ihsd]; try omega))]
          refine ⟨by simp [tapResult, tapStatics, seedUpdate, ihf],
            by simp [tapResult, tapStatics, seedUpdate],
            by simp [tapResult, tapStatics, seedUpdate],
            by simp [tapResult, tapStatics, seedUpdate], ?_, ?_, ?_, ?_, ?_⟩
          all_goals simp [tapResult, tapStatics, seedUpdate, ihsh, ihsd, ihst, ihdp, ihla,
            decide_eq_decide]
          all_goals try omega
          all_goals try (split_ifs <;> omega)
          all_goals try (rw [Bool.eq_iff_iff]; simp only [Bool.and_eq_true, Bool.or_eq_true, decide_eq_true_eq]; omega)
        · rcases Nat.eq_or_lt_of_le hk10 with hkeq | hk11
          · -- k = 10: confirmation tick
            have hkeq' : k = 10 := by omega
            subst hkeq'
            have f1 : (1 ≤ 10 ∧ 10 ≤ m + 10) := by omega
            have f2 : ¬(11 ≤ 10 ∧ 10 ≤ m + 10) := by omega
            rw [shake_state_update_confirm _ _
              (by simp [tapStatics, seedUpdate, ihst, f1])
              (by simp [tapStatics, seedUpdate, ihsh, f2])
              (by simp [tapStatics, seedUpdate, ihst, f1,
                    CONFIG_MPU6050_SHAKE_MIN_DURATION_MS]; try omega)]
            rw [shake_display_timeout_id _ _ (Or.inr (Or.inr (Or.inl
              (by simp [tapStatics, seedUpdate]))))]
            refine ⟨by simp [tapResult, tapStatics, seedUpdate, ihf],
              by simp [tapResult, tapStatics, seedUpdate],
              by simp [tapResult, tapStatics, seedUpdate],
              by simp [tapResult, tapStatics, seedUpdate], ?_, ?_, ?_, ?_, ?_⟩
            all_goals simp [tapResult, tapStatics, seedUpdate, ihsh, ihsd, ihst, ihdp, ihla,
              decide_eq_decide]
            all_goals try omega
            all_goals try (split_ifs <;> omega)
            all_goals try (rw [Bool.eq_iff_iff]; simp only [Bool.and_eq_true, Bool.or_eq_true, decide_eq_true_eq]; omega)
          · -- 11 ≤ k and k + 1 ≤ m: confirmed shaking continues
            have f1 : (1 ≤ k ∧ k ≤ m + 10) := by omega
            have f2 : (11 ≤ k ∧ k ≤ m + 10) := by omega
            rw [shake_state_update_shaking _ _
              (by simp [tapStatics, seedUpdate, ihst, f1])
              (by simp [tapStatics, seedUpdate, ihsh, f2])]
            rw [shake_display_timeout_id _ _ (Or.inr (Or.inr (Or.inl
              (by simp [tapStatics, seedUpdate, ihsh, f2]))))]
            refine ⟨by simp [tapResult, tapStatics, seedUpdate, ihf],
              by simp [tapResult, tapStatics, seedUpdate],
              by simp [tapResult, tapStatics, seedUpdate],
              by simp [tapResult, tapStatics, seedUpdate], ?_, ?_, ?_, ?_, ?_⟩
            all_goals simp [tapResult, tapStatics, seedUpdate, ihsh, ihsd, ihst, ihdp, ihla,
              decide_eq_decide]
            all_goals try omega
            all_goals try (split_ifs <;> omega)
            all_goals try (rw [Bool.eq_iff_iff]; simp only [Bool.and_eq_true, Bool.or_eq_true, decide_eq_true_eq]; omega)
    · -- no activity at tick k + 1 (so k ≥ m ≥ 11)
      have hkm' : m ≤ k := by omega
      have h1k : 1 ≤ k := by omega
      have hdec : decide (|(s (k + 1)).acce_x - (motionRun s t0 k).prev_ax| ^ 2 +
          |(s (k + 1)).acce_y - (motionRun s t0 k).prev_ay| ^ 2 +
          |(s (k + 1)).acce_z - (motionRun s t0 k).prev_az| ^ 2 >
          CONFIG_MPU6050_SHAKE_THRESHOLD ^ 2) = false := by
        rw [decide_eq_false_iff_not, gt_iff_lt, not_lt, ihx, ihy, ihz]
        have h1 := hquiet (k + 1) (by omega)
        simpa [deltaSq, sq_abs] using h1
      rw [hdec] at hstep
      rw [hrun, hstep]
      rcases Nat.lt_or_ge (k + 1) (m + 11) with hR1 | hR23
      · -- m < k+1 ≤ m+10: no timeout yet, state frozen
        rw [shake_state_update_idle _ _ (Or.inr (by
          simp [tapStatics, seedUpdate, ihla, h1k, min_eq_right hkm',
            CONFIG_MPU6050_SHAKE_TIMEOUT_MS]
          omega))]
        have f2 : (11 ≤ k ∧ k ≤ m + 10) := by omega
        rw [shake_display_timeout_id _ _ (Or.inr (Or.inr (Or.inl
          (by simp [tapStatics, seedUpdate, ihsh, f2]))))]
        refine ⟨by simp [tapResult, tapStatics, seedUpdate, ihf],
          by simp [tapResult, tapStatics, seedUpdate],
          by simp [tapResult, tapStatics, seedUpdate],
          by simp [tapResult, tapStatics, seedUpdate], ?_, ?_, ?_, ?_, ?_⟩
        all_goals simp [tapResult, tapStatics, seedUpdate, ihsh, ihsd, ihst, ihdp, ihla,
          decide_eq_decide]
        all_goals try omega
        all_goals try (split_ifs <;> omega)
        all_goals try (rw [Bool.eq_iff_iff]; simp only [Bool.and_eq_true, Bool.or_eq_true, decide_eq_true_eq]; omega)
      · rcases Nat.eq_or_lt_of_le hR23 with hR2 | hR3
        · -- k+1 = m+11: the activity timeout fires
          have f1 : (1 ≤ k ∧ k ≤ m + 10) := by omega
          have fdp : (11 ≤ k ∧ k < max 27 (m + 11)) := by
            constructor
            · omega
            · have : k < m + 11 := by omega
              omega
          rcases Nat.lt_or_ge m 16 with hm15 | hm16
          · -- m ≤ 15: inside the display-hold window, the flag is kept
            rw [shake_state_update_timeout_hold _ _
              (by simp [tapStatics, seedUpdate, ihst, f1]; try omega)
              (by simp [tapStatics, seedUpdate, ihla, h1k, min_eq_right hkm',
                    CONFIG_MPU6050_SHAKE_TIMEOUT_MS]; try omega)
              (by simp [tapStatics, seedUpdate, ihdp, fdp]; try omega)
              (by simp [tapStatics, seedUpdate, ihdp, fdp,
                    CONFIG_MPU6050_SHAKE_DISPLAY_MS]; try omega)]
            rw [shake_display_timeout_id _ _ (Or.inr (Or.inr (Or.inr
              (by simp [tapStatics, seedUpdate, ihdp, fdp,
                    CONFIG_MPU6050_SHAKE_DISPLAY_MS]; try omega))))]
            refine ⟨by simp [tapResult, tapStatics, seedUpdate, ihf],
              by simp [tapResult, tapStatics, seedUpdate],
              by simp [tapResult, tapStatics, seedUpdate],
              by simp [tapResult, tapStatics, seedUpdate], ?_, ?_, ?_, ?_, ?_⟩
            all_goals simp [tapResult, tapStatics, seedUpdate, ihsh, ihsd, ihst, ihdp,
              ihla, decide_eq_decide]
            all_goals try omega
            all_goals try (split_ifs <;> omega)
            all_goals try (rw [Bool.eq_iff_iff]; simp only [Bool.and_eq_true, Bool.or_eq_true, decide_eq_true_eq]; omega)
          · -- m ≥ 16: the display window has already elapsed, clear it
            rw [shake_state_update_timeout_clear _ _
              (by simp [tapStatics, seedUpdate, ihst, f1]; try omega)
              (by simp [tapStatics, seedUpdate, ihla, h1k, min_eq_right hkm',
                    CONFIG_MPU6050_SHAKE_TIMEOUT_MS]; try omega)
              (Or.inr (by simp [tapStatics, seedUpdate, ihdp, fdp,
                    CONFIG_MPU6050_SHAKE_DISPLAY_MS]; try omega))]
            rw [shake_display_timeout_id _ _ (Or.inl (by
              simp [tapStatics, seedUpdate]))]
            refine ⟨by simp [tapResult, tapStatics, seedUpdate, ihf],
              by simp [tapResult, tapStatics, seedUpdate],
              by simp [tapResult, tapStatics, seedUpdate],
              by simp [tapResult, tapStatics, seedUpdate], ?_, ?_, ?_, ?_, ?_⟩
            all_goals simp [tapResult, tapStatics, seedUpdate, ihsh, ihsd, ihst, ihdp,
              ihla, decide_eq_decide]
            all_goals try omega
            all_goals try (split_ifs <;> omega)
            all_goals try (rw [Bool.eq_iff_iff]; simp only [Bool.and_eq_true, Bool.or_eq_true, decide_eq_true_eq]; omega)
        · -- k+1 > m+11: the shake timer is already cleared
          have fst : ¬(1 ≤ k ∧ k ≤ m + 10) := by omega
          rw [shake_state_update_idle _ _ (Or.inl
            (by simp [tapStatics, seedUpdate, ihst, fst]))]
          rcases Nat.lt_or_ge (k + 1) 27 with hR3a | h27
          · -- display still inside its window
            have fdp : (11 ≤ k ∧ k < max 27 (m + 11)) := by omega
            rw [shake_display_timeout_id _ _ (Or.inr (Or.inr (Or.inr
              (by simp [tapStatics, seedUpdate, ihdp, fdp,
                    CONFIG_MPU6050_SHAKE_DISPLAY_MS]; try omega))))]
            refine ⟨by simp [tapResult, tapStatics, seedUpdate, ihf],
              by simp [tapResult, tapStatics, seedUpdate],
              by simp [tapResult, tapStatics, seedUpdate],
              by simp [tapResult, tapStatics, seedUpdate], ?_, ?_, ?_, ?_, ?_⟩
            all_goals simp [tapResult, tapStatics, seedUpdate, ihsh, ihsd, ihst, ihdp,
              ihla, decide_eq_decide]
            all_goals try omega
            all_goals try (split_ifs <;> omega)
            all_goals try (rw [Bool.eq_iff_iff]; simp only [Bool.and_eq_true, Bool.or_eq_true, decide_eq_true_eq]; omega)
          · rcases Nat.eq_or_lt_of_le h27 with hR3b | hR3c
            · -- k+1 = 27: the display hold expires exactly now
              have fdp : (11 ≤ k ∧ k < max 27 (m + 11)) := by omega
              have fsh : ¬(11 ≤ k ∧ k ≤ m + 10) := by omega
              rw [shake_display_timeout_clear _ _
                (by simp [tapStatics, seedUpdate, ihsd, fdp])
                (by simp [tapStatics, seedUpdate, ihdp, fdp]; try omega)
                (by simp [tapStatics, seedUpdate, ihsh, fsh])
                (by simp [tapStatics, seedUpdate, ihdp, fdp,
                      CONFIG_MPU6050_SHAKE_DISPLAY_MS]; try omega)]
              refine ⟨by simp [tapResult, tapStatics, seedUpdate, ihf],
                by simp [tapResult, tapStatics, seedUpdate],
                by simp [tapResult, tapStatics, seedUpdate],
                by simp [tapResult, tapStatics, seedUpdate], ?_, ?_, ?_, ?_, ?_⟩
              all_goals simp [tapResult, tapStatics, seedUpdate, ihsh, ihsd, ihst, ihdp,
                ihla, decide_eq_decide]
              all_goals try omega
              all_goals try (split_ifs <;> omega)
              all_goals try (rw [Bool.eq_iff_iff]; simp only [Bool.and_eq_true, Bool.or_eq_true, decide_eq_true_eq]; omega)
            · -- k+1 > 27 and k+1 > m+11: everything already cleared
              have fdp : ¬(11 ≤ k ∧ k < max 27 (m + 11)) := by omega
              rw [shake_display_timeout_id _ _ (Or.inl
                (by simp [tapStatics, seedUpdate, ihsd, fdp]; try omega))]
              refine ⟨by simp [tapResult, tapStatics, seedUpdate, ihf],
                by simp [tapResult, tapStatics, seedUpdate],
                by simp [tapResult, tapStatics, seedUpdate],
                by simp [tapResult, tapStatics, seedUpdate], ?_, ?_, ?_, ?_, ?_⟩
              all_goals simp [tapResult, tapStatics, seedUpdate, ihsh, ihsd, ihst, ihdp,
                ihla, decide_eq_decide, fdp]
              all_goals try omega
              all_goals try (split_ifs <;> omega)
              all_goals try (rw [Bool.eq_iff_iff]; simp only [Bool.and_eq_true, Bool.or_eq_true, decide_eq_true_eq]; omega)

theorem c4WitnessStream_active :
    ∀ k, 1 ≤ k → k ≤ 12 →
      CONFIG_MPU6050_SHAKE_THRESHOLD ^ 2 < deltaSq c4WitnessStream k := by
  intro k hk hk12
  have hk1 : k - 1 ≤ 12 := by omega
  rcases Nat.mod_two_eq_zero_or_one k with h | h
  · have h1 : (k - 1) % 2 = 1 := by omega
    simp [deltaSq, c4WitnessStream, h, h1, hk12, hk1, CONFIG_MPU6050_SHAKE_THRESHOLD]
    rw [abs_of_nonneg (by norm_num : (0:ℚ) ≤ 0.18)]
    norm_num
  · have h1 : (k - 1) % 2 = 0 := by omega
    simp [deltaSq, c4WitnessStream, h, h1, hk12, hk1, CONFIG_MPU6050_SHAKE_THRESHOLD]
    rw [abs_of_nonneg (by norm_num : (0:ℚ) ≤ 0.18)]
    norm_num

theorem c4WitnessStream_quiet :
    ∀ k, 12 < k → deltaSq c4WitnessStream k ≤ CONFIG_MPU6050_SHAKE_THRESHOLD ^ 2 := by
  intro k hk
  have hx : ¬(k ≤ 12) := by omega
  rcases Nat.lt_or_ge k 14 with h13 | h14
  · have hk13 : k = 13 := by omega
    subst hk13
    norm_num [deltaSq, c4WitnessStream, CONFIG_MPU6050_SHAKE_THRESHOLD]
  · have h1 : ¬(k - 1 ≤ 12) := by omega
    norm_num [deltaSq, c4WitnessStream, hx, h1, CONFIG_MPU6050_SHAKE_THRESHOLD]

/-- C4: on any stream with continuous shake activity at ticks 1..m (m ≥ 11,
so the shake is confirmed at tick 11, the first polling instant whose elapsed
time since activity start reaches CONFIG_MPU6050_SHAKE_MIN_DURATION_MS) and
no activity afterwards, the module is shaking at the confirmation tick, the
published shake_detected flag stays true at every later polling instant
earlier than CONFIG_MPU6050_SHAKE_DISPLAY_MS past the confirmation instant
t0 + 550 — even when activity ceased before that — and it is false at every
tick from max 27 (m + 11) on (the code clears it at the later of the display
deadline and SHAKE_DISPLAY_MS past the activity-timeout reset). -/
theorem C4_shake_display_hold (s : ℕ → AccelSample) (t0 m : ℕ) (hm : 11 ≤ m)
    (hact : ∀ k, 1 ≤ k → k ≤ m → CONFIG_MPU6050_SHAKE_THRESHOLD ^ 2 < deltaSq s k)
    (hquiet : ∀ k, m < k → deltaSq s k ≤ CONFIG_MPU6050_SHAKE_THRESHOLD ^ 2) :
    (motionRun s t0 11).is_shaking = true ∧
    (∀ k, 11 ≤ k →
      t0 + CONFIG_MPU6050_POLL_INTERVAL_MS * k <
        (t0 + 550) + CONFIG_MPU6050_SHAKE_DISPLAY_MS →
      (motionRun s t0 k).shake_detected = true) ∧
    (∀ k, max 27 (m + 11) ≤ k → (motionRun s t0 k).shake_detected = false) := by
  have hC := C4_state s t0 m hm hact hquiet
  refine ⟨?_, ?_, ?_⟩
  · have h := (hC 11).2.2.2.2.1
    rw [h, decide_eq_true_eq]
    omega
  · intro k hk hlt
    have h := (hC k).2.2.2.2.2.1
    rw [h, decide_eq_true_eq]
    simp only [CONFIG_MPU6050_POLL_INTERVAL_MS, CONFIG_MPU6050_SHAKE_DISPLAY_MS] at hlt
    refine ⟨hk, ?_⟩
    have h27 : k < 27 := by omega
    omega
  · intro k hk
    have h := (hC k).2.2.2.2.2.1
    rw [h, decide_eq_false_iff_not]
    omega

/-- Witness for C4: the stream with shake activity exactly at ticks 1..12
satisfies both hypotheses with m = 12, and the theorem applies at t0 = 0:
the shake is confirmed at tick 11 and the flag is held to tick 27 (1350 ms,
which is 800 ms past the 550 ms confirmation instant) although activity
stopped at tick 12. -/
theorem C4_shake_display_hold_witness :
    (11 ≤ 12) ∧
    (∀ k, 1 ≤ k → k ≤ 12 →
      CONFIG_MPU6050_SHAKE_THRESHOLD ^ 2 < deltaSq c4WitnessStream k) ∧
    (∀ k, 12 < k → deltaSq c4WitnessStream k ≤ CONFIG_MPU6050_SHAKE_THRESHOLD ^ 2) ∧
    ((motionRun c4WitnessStream 0 11).is_shaking = true ∧
     (∀ k, 11 ≤ k →
        0 + CONFIG_MPU6050_POLL_INTERVAL_MS * k <
          (0 + 550) + CONFIG_MPU6050_SHAKE_DISPLAY_MS →
        (motionRun c4WitnessStream 0 k).shake_detected = true) ∧
     (∀ k, max 27 (12 + 11) ≤ k →
        (motionRun c4WitnessStream 0 k).shake_detected = false)) :=
  ⟨by omega, c4WitnessStream_active, c4WitnessStream_quiet,
    C4_shake_display_hold c4WitnessStream 0 12 (by omega)
      c4WitnessStream_active c4WitnessStream_quiet⟩

end SmartAssistant
